import Mathlib

/-!
Shallow embedding of the metadata resolution engine of
`Backend/helper/metadata.py` (Telegram-Stremio).

External collaborators (the PTN filename parser, the IMDb client
`Backend.helper.imdb`, the `themoviedb` client, and the reference-token
encoder) are modelled as a deterministic oracle record `Env`: each
collaborator call is a pure function returning `Except Unit α`, where
`Except.error ()` models a raised exception.  The per-process caches and
the outbound-call trace form the state `St`; computations live in the
monad `M α = St → Except Unit α × St`, so an uncaught Python exception is
`Except.error` with the state at the raise point.

Python truthiness, `dict.get` (absent key vs `None` value), string cache
keys, and the `re` patterns of the source are modelled explicitly.
-/

set_option maxHeartbeats 1000000

namespace TgStremio

/-- A value stored under a dict key / dataclass attribute: the key can be
absent, present with Python `None`, or present with a value. -/
inductive Fd (α : Type) where
  | absent : Fd α
  | null : Fd α
  | val (a : α) : Fd α
deriving DecidableEq, Repr

/-- Python `d.get(k, default)` with a non-`None` default: absent key gives
the default, a `None` value stays `None`. -/
def fdGet {α : Type} (f : Fd α) (d : α) : Option α :=
  match f with
  | .absent => some d
  | .null => none
  | .val a => some a

/-- Python `d.get(k)` / `getattr(o, k, None)`: both absent and `None`
collapse to `None`. -/
def fdOpt {α : Type} (f : Fd α) : Option α :=
  match f with
  | .absent => none
  | .null => none
  | .val a => some a

/-- Truthiness of a Python string-or-None value. -/
def strT (o : Option String) : Bool :=
  match o with
  | none => false
  | some s => !s.isEmpty

/-- Truthiness of a Python int-or-None value (`0` and `None` are falsy). -/
def natT (o : Option Nat) : Bool :=
  match o with
  | none => false
  | some n => n != 0

/-- Python `a or b` for string values: keeps `a` when truthy. -/
def pyOrStr (a : Option String) (b : String) : String :=
  match a with
  | some s => if s.isEmpty then b else s
  | none => b

/-- Season/episode field parsed by PTN: a single int or a list. -/
inductive SE where
  | single (n : Nat) : SE
  | listv (l : List Nat) : SE
deriving DecidableEq, Repr

def seT (o : Option SE) : Bool :=
  match o with
  | none => false
  | some (.single n) => n != 0
  | some (.listv l) => !l.isEmpty

def seIsList (o : Option SE) : Bool :=
  match o with
  | some (.listv _) => true
  | _ => false

def seNum (o : Option SE) : Nat :=
  match o with
  | some (.single n) => n
  | _ => 0

/-- PTN's `excess` entry: a single string or a list of strings. -/
inductive ExcessV where
  | estr (s : String) : ExcessV
  | elist (l : List String) : ExcessV
deriving DecidableEq, Repr

/-- Result of `PTN.parse`, restricted to the keys the code reads. -/
structure Parsed where
  title : Option String
  season : Option SE
  episode : Option SE
  year : Option Nat
  resolution : Option String
  excess : Option ExcessV
deriving DecidableEq, Repr

/-- Substring test on character lists (Python `pat in s`). -/
def hasSubstr (pat : List Char) : List Char → Bool
  | [] => pat.isEmpty
  | c :: r => pat.isPrefixOf (c :: r) || hasSubstr pat r

/-- `any("combined" in item.lower() for item in excess)`; iterating a bare
string yields single characters, which never contain `"combined"`. -/
def hasCombined (e : ExcessV) : Bool :=
  match e with
  | .estr _ => false
  | .elist l => l.any (fun item => hasSubstr "combined".data item.toLower.data)

/-- Leading digit run of a character list. -/
def leadDigits : List Char → List Char
  | [] => []
  | c :: r => if c.isDigit then c :: leadDigits r else []

/-- Try to match `/title/(tt\d+)` at the head of the list. -/
def matchTTAt (l : List Char) : Option String :=
  if "/title/tt".data.isPrefixOf l then
    let ds := leadDigits (l.drop 9)
    if ds.isEmpty then none else some (String.mk ('t' :: 't' :: ds))
  else none

/-- Try to match `/((movie|tv))/(\d+)` at the head of the list, capturing
the digit group. -/
def matchMTAt (l : List Char) : Option String :=
  if "/movie/".data.isPrefixOf l then
    let ds := leadDigits (l.drop 7)
    if ds.isEmpty then none else some (String.mk ds)
  else if "/tv/".data.isPrefixOf l then
    let ds := leadDigits (l.drop 4)
    if ds.isEmpty then none else some (String.mk ds)
  else none

/-- `re.search`: first position (left to right) where the matcher fires. -/
def scanFirst (f : List Char → Option String) : List Char → Option String
  | [] => f []
  | c :: r =>
    match f (c :: r) with
    | some x => some x
    | none => scanFirst f r

/-- `extract_default_id` of the source: IMDb pattern first, then TMDb. -/
def extract_default_id (url : String) : Option String :=
  match scanFirst matchTTAt url.data with
  | some s => some s
  | none => scanFirst matchMTAt url.data

/-- Character class `[s._-]` under `IGNORECASE`. -/
def sepChar (c : Char) : Bool :=
  c == 's' || c == 'S' || c == '.' || c == '_' || c == '-'

/-- Character class `\w` (ASCII fragment). -/
def wordChar (c : Char) : Bool := c.isAlphanum || c == '_'

/-- The lookahead `(?=\.\w+$)`: rest is a dot then word chars to the end. -/
def extOk : List Char → Bool
  | '.' :: r => !r.isEmpty && r.all wordChar
  | _ => false

/-- Match `(?:part|cd|disc|disk)[s._-]*\d+(?=\.\w+$)` at this position
(case-insensitive).  The separator class and digits are disjoint, and a
digit cannot satisfy the lookahead, so maximal runs are the only viable
parse and no backtracking cases remain. -/
def mpAt (l : List Char) : Bool :=
  let low := l.map Char.toLower
  let tok : Option Nat :=
    if "part".data.isPrefixOf low then some 4
    else if "cd".data.isPrefixOf low then some 2
    else if "disc".data.isPrefixOf low then some 4
    else if "disk".data.isPrefixOf low then some 4
    else none
  match tok with
  | none => false
  | some n =>
    let r := (l.drop n).dropWhile sepChar
    let ds := r.takeWhile Char.isDigit
    !ds.isEmpty && extOk (r.drop ds.length)

/-- `multipart_pattern.search(filename)` as a boolean. -/
def scanAnyPos (f : List Char → Bool) : List Char → Bool
  | [] => f []
  | c :: r => f (c :: r) || scanAnyPos f r

def multipart (s : String) : Bool := scanAnyPos mpAt s.data

/-- Python `s.isdigit()` (ASCII fragment; empty string is falsy). -/
def isDigits (s : String) : Bool := !s.isEmpty && s.data.all Char.isDigit

/-- Python `s.startswith("tt")`. -/
def startsWithTT (s : String) : Bool := "tt".data.isPrefixOf s.data

/-- Python `s.strip()` (whitespace from both ends). -/
def pyStrip (s : String) : String :=
  String.mk (((s.data.dropWhile Char.isWhitespace).reverse.dropWhile
    Char.isWhitespace).reverse)

/-- `int(s)` on a digit string. -/
def pyInt (s : String) : Nat :=
  s.data.foldl (fun a c => a * 10 + (c.toNat - Char.toNat '0')) 0

/-- Remove every (non-overlapping, left-to-right) occurrence of `"tt"`. -/
def dropTT : List Char → List Char
  | 't' :: 't' :: r => dropTT r
  | c :: r => c :: dropTT r
  | [] => []

/-- Python `s.replace("tt", "")`. -/
def pyReplaceTT (s : String) : String := String.mk (dropTT s.data)

/-! ## Provider record shapes

IMDb (`Backend.helper.imdb`) returns plain dicts, so every key is a `Fd`
(absent / `None` / value).  TMDb (`themoviedb`) returns dataclasses whose
attributes are always present but may hold `None`, so those are `Option`
valued fields. -/

/-- Nested `releaseDetailed` dict of an IMDb detail record. -/
structure RelDet where
  year : Fd Nat
deriving DecidableEq, Repr

/-- Nested `rating` dict of an IMDb detail record. -/
structure IRating where
  star : Fd Int
deriving DecidableEq, Repr

/-- IMDb detail dict (keys the normalizer reads); `hasExtra` records
whether the dict carries any further keys, which matters for the Python
`== {}` and truthiness tests. -/
structure ImdbDict where
  moviedb_id : Fd Nat
  title : Fd String
  releaseDetailed : Fd RelDet
  rating : Fd IRating
  plot : Fd String
  cast : Fd (List String)
  runtime : Fd String
  genre : Fd (List String)
  hasExtra : Bool
deriving DecidableEq, Repr

def ImdbDict.isEmptyDict (d : ImdbDict) : Bool :=
  d.moviedb_id == .absent && d.title == .absent &&
  d.releaseDetailed == .absent && d.rating == .absent &&
  d.plot == .absent && d.cast == .absent &&
  d.runtime == .absent && d.genre == .absent && !d.hasExtra

def emptyImdbDict : ImdbDict :=
  ⟨.absent, .absent, .absent, .absent, .absent, .absent, .absent, .absent, false⟩

/-- IMDb per-episode dict (from `get_season`). -/
structure EpDict where
  title : Fd String
  image : Fd String
  plot : Fd String
  released : Fd String
  hasExtra : Bool
deriving DecidableEq, Repr

def EpDict.isEmptyDict (d : EpDict) : Bool :=
  d.title == .absent && d.image == .absent && d.plot == .absent &&
  d.released == .absent && !d.hasExtra

def emptyEpDict : EpDict := ⟨.absent, .absent, .absent, .absent, false⟩

/-- The dict returned by `search_title`: Python truthiness distinguishes
the empty dict; `result["id"]` raises `KeyError` when the key is absent. -/
inductive SRes where
  | emptyD : SRes
  | withId (f : Fd String) : SRes
deriving DecidableEq, Repr

/-- A date value (`datetime.date`); `strftime` output is derived from it. -/
structure MDate where
  y : Nat
  m : Nat
  d : Nat
deriving DecidableEq, Repr

def pad2 (n : Nat) : String := if n < 10 then "0" ++ toString n else toString n

def pad4 (n : Nat) : String :=
  if n < 10 then "000" ++ toString n
  else if n < 100 then "00" ++ toString n
  else if n < 1000 then "0" ++ toString n
  else toString n

/-- `d.strftime("%Y-%m-%dT05:00:00.000Z")`. -/
def strfRender (d : MDate) : String :=
  pad4 d.y ++ "-" ++ pad2 d.m ++ "-" ++ pad2 d.d ++ "T05:00:00.000Z"

structure ExtIds where
  imdb_id : Option String
deriving DecidableEq, Repr

structure Genre where
  name : Option String
deriving DecidableEq, Repr

structure CastM where
  name : Option String
  original_name : Option String
deriving DecidableEq, Repr

structure Credits where
  cast : Option (List CastM)
deriving DecidableEq, Repr

structure Logo where
  iso_639_1 : Option String
  file_path : Option String
deriving DecidableEq, Repr

structure TImages where
  logos : Option (List Logo)
deriving DecidableEq, Repr

/-- TMDb search result (only `.id` is read). -/
structure TRes where
  id : Nat
deriving DecidableEq, Repr

/-- TMDb movie details object (after `details.images = images`). -/
structure TmdbMovie where
  id : Nat
  title : Option String
  release_date : Option MDate
  vote_average : Option Int
  overview : Option String
  poster_path : Option String
  backdrop_path : Option String
  genres : Option (List Genre)
  credits : Option Credits
  runtime : Option Nat
  external_ids : Option ExtIds
  images : Option TImages
deriving DecidableEq, Repr

/-- TMDb tv details object (after `details.images = images`). -/
structure TmdbTv where
  id : Nat
  name : Option String
  first_air_date : Option MDate
  vote_average : Option Int
  overview : Option String
  poster_path : Option String
  backdrop_path : Option String
  genres : Option (List Genre)
  credits : Option Credits
  episode_run_time : Option (List Nat)
  external_ids : Option ExtIds
  images : Option TImages
deriving DecidableEq, Repr

/-- TMDb episode details object. -/
structure TmdbEpisode where
  name : Option String
  still_path : Option String
  overview : Option String
  air_date : Option MDate
  runtime : Option Nat
deriving DecidableEq, Repr

/-! ## Caches, trace and environment -/

/-- A value stored in `IMDB_CACHE`: search entries hold an id-or-`None`,
detail entries hold a dict-or-`None`.  The two key namespaces can collide
(a search-returned id string may equal a search key), so the value type is
a sum exactly like the untyped Python dict. -/
inductive ICVal where
  | idv (v : Option String) : ICVal
  | detv (v : Option ImdbDict) : ICVal
deriving DecidableEq, Repr

/-- A value stored in `TMDB_DETAILS_CACHE` (shared by movie and tv ids). -/
inductive DCVal where
  | mov (v : Option TmdbMovie) : DCVal
  | tvv (v : Option TmdbTv) : DCVal
deriving DecidableEq, Repr

/-- A key of `EPISODE_CACHE`: the IMDb path uses an f-string, the TMDb
path a tuple; the two never collide in Python either. -/
inductive EKey where
  | sk (s : String) : EKey
  | tk (t : Nat × Nat × Nat) : EKey
deriving DecidableEq, Repr

inductive EVal where
  | iev (v : Option EpDict) : EVal
  | tev (v : Option TmdbEpisode) : EVal
deriving DecidableEq, Repr

/-- One traced outbound provider call (the gate-wrapped API calls). -/
inductive Call where
  | cImdbSearch : Call
  | cImdbDetail : Call
  | cImdbSeason : Call
  | cTmdbSearch : Call
  | cTmdbDetails : Call
  | cTmdbEpisode : Call
deriving DecidableEq, Repr

def Call.isImdb (c : Call) : Bool :=
  match c with
  | .cImdbSearch => true
  | .cImdbDetail => true
  | .cImdbSeason => true
  | _ => false

def imdbCallCount (t : List Call) : Nat := t.countP (fun c => c.isImdb)

/-- Process state: the four cache dicts plus the outbound-call trace.
Association lists with newest binding first model dict overwrite. -/
structure St where
  imdbC : List (String × ICVal)
  tsC : List ((String × String × Option Nat) × Option TRes)
  tdC : List (Nat × DCVal)
  epC : List (EKey × EVal)
  trace : List Call
deriving Repr

def emptySt : St := ⟨[], [], [], [], []⟩

/-- Deterministic behaviour of every external collaborator; `Except.error`
models a raised exception. -/
structure Env where
  ptnParse : String → Except Unit Parsed
  useDefaultId : Except Unit String
  searchTitle : String → String → Except Unit (Option SRes)
  getDetail : String → String → Except Unit (Option ImdbDict)
  getSeason : String → Nat → Nat → Except Unit (Option EpDict)
  tmdbSearchMovies : String → Option Nat → Except Unit (List TRes)
  tmdbSearchTv : String → Except Unit (List TRes)
  tmdbMovieDetails : Nat → Except Unit (Option TmdbMovie)
  tmdbMovieImages : Nat → Except Unit TImages
  tmdbTvDetails : Nat → Except Unit (Option TmdbTv)
  tmdbTvImages : Nat → Except Unit TImages
  tmdbEpisodeDetails : Nat → Nat → Nat → Except Unit (Option TmdbEpisode)
  encodeString : Nat → Nat → Except Unit String

/-! ## The computation monad -/

def M (α : Type) : Type := St → Except Unit α × St

def M.pure {α : Type} (a : α) : M α := fun σ => (.ok a, σ)

def M.bind {α β : Type} (x : M α) (f : α → M β) : M β := fun σ =>
  match x σ with
  | (.ok a, σ') => f a σ'
  | (.error e, σ') => (.error e, σ')

instance : Monad M where
  pure := M.pure
  bind := M.bind

/-- A raised exception. -/
def throwM {α : Type} : M α := fun σ => (.error (), σ)

/-- `try ... except Exception: handler` (state mutations survive). -/
def tryM {α : Type} (x : M α) (h : Unit → M α) : M α := fun σ =>
  match x σ with
  | (.error _, σ') => h () σ'
  | r => r

def getM : M St := fun σ => (.ok σ, σ)

def modifyM (f : St → St) : M Unit := fun σ => (.ok (), f σ)

/-- Lift a pure, possibly-raising computation. -/
def liftE {α : Type} (e : Except Unit α) : M α := fun σ => (e, σ)

def logCall (c : Call) : M Unit :=
  modifyM (fun σ => { σ with trace := σ.trace ++ [c] })

def putI (k : String) (v : ICVal) : St → St :=
  fun σ => { σ with imdbC := (k, v) :: σ.imdbC }

def putTS (k : String × String × Option Nat) (v : Option TRes) : St → St :=
  fun σ => { σ with tsC := (k, v) :: σ.tsC }

def putTD (k : Nat) (v : DCVal) : St → St :=
  fun σ => { σ with tdC := (k, v) :: σ.tdC }

def putE (k : EKey) (v : EVal) : St → St :=
  fun σ => { σ with epC := (k, v) :: σ.epC }

/-! ## Values flowing through the untyped Python locals -/

/-- The Python value bound to `imdb_id`: a string, `None`, or (through the
shared `IMDB_CACHE`) a detail dict. -/
inductive PyIdV where
  | str (s : String) : PyIdV
  | nilv : PyIdV
  | dictv (d : ImdbDict) : PyIdV
deriving DecidableEq, Repr

def pyIdT (v : PyIdV) : Bool :=
  match v with
  | .str s => !s.isEmpty
  | .nilv => false
  | .dictv d => !d.isEmptyDict

/-- The Python value bound to `imdb_tv` / `imdb_details`: a dict-or-`None`
or (via a cache key collision) a raw id string. -/
inductive DetV where
  | dic (v : Option ImdbDict) : DetV
  | strv (s : String) : DetV
deriving DecidableEq, Repr

def detIsNone (x : DetV) : Bool :=
  match x with
  | .dic none => true
  | _ => false

def detIsEmpty (x : DetV) : Bool :=
  match x with
  | .dic (some d) => d.isEmptyDict
  | _ => false

/-- The Python value bound to `imdb_ep`: an episode dict-or-`None` or (via
the shared `EPISODE_CACHE`) a TMDb episode object. -/
inductive EpIV where
  | di (v : Option EpDict) : EpIV
  | wo (o : TmdbEpisode) : EpIV
deriving DecidableEq, Repr

/-- The value returned by `_tmdb_movie_details`: a movie-or-`None`, or a
cached tv object under the same integer key. -/
inductive MovV where
  | m (v : Option TmdbMovie) : MovV
  | wtv (t : TmdbTv) : MovV
deriving DecidableEq, Repr

/-- The value returned by `_tmdb_tv_details`. -/
inductive TvV where
  | t (v : Option TmdbTv) : TvV
  | wm (mv : TmdbMovie) : TvV
deriving DecidableEq, Repr

/-- The value bound to `ep` in the TMDb tv path: an episode-or-`None`, or
an IMDb episode dict cached under a colliding key (impossible in practice,
kept for totality over arbitrary cache states). -/
inductive EpTV where
  | e (v : Option TmdbEpisode) : EpTV
  | wi (d : EpDict) : EpTV
deriving DecidableEq, Repr

def epT (ep : EpTV) : Bool :=
  match ep with
  | .e none => false
  | .e (some _) => true
  | .wi d => !d.isEmptyDict

/-! ## Canonical output records -/

/-- The heterogeneous `tmdb_id` output value (int from TMDb or
`moviedb_id`, string from `imdb_id.replace("tt", "")`). -/
inductive TmdbIdV where
  | tnum (n : Nat) : TmdbIdV
  | tstr (s : String) : TmdbIdV
deriving DecidableEq, Repr

structure MovieMeta where
  tmdb_id : TmdbIdV
  imdb_id : Option String
  title : Option String
  year : Option Nat
  rate : Option Int
  description : Option String
  poster : String
  backdrop : String
  logo : String
  cast : Option (List (Option String))
  runtime : String
  media_type : String
  genres : Option (List (Option String))
  quality : Option String
  encoded_string : Option String
deriving DecidableEq, Repr

structure TvMeta where
  tmdb_id : TmdbIdV
  imdb_id : Option String
  title : Option String
  year : Option Nat
  rate : Option Int
  description : Option String
  poster : String
  backdrop : String
  logo : String
  cast : Option (List (Option String))
  runtime : String
  genres : Option (List (Option String))
  media_type : String
  season_number : Nat
  episode_number : Nat
  episode_title : Option String
  episode_backdrop : Option String
  episode_overview : Option String
  episode_released : String
  quality : Option String
  encoded_string : Option String
deriving DecidableEq, Repr

inductive MetaOut where
  | movie (m : MovieMeta) : MetaOut
  | tv (t : TvMeta) : MetaOut
deriving DecidableEq, Repr

/-! ## Pure helpers of the source -/

def format_tmdb_image (path : Option String) (size : String) : String :=
  match path with
  | none => ""
  | some p => if p.isEmpty then "" else "https://image.tmdb.org/t/p/" ++ size ++ p

def get_tmdb_logo (images : Option TImages) : String :=
  match images with
  | none => ""
  | some im =>
    match im.logos with
    | none => ""
    | some logos =>
      if logos.isEmpty then ""
      else
        match logos.find? (fun lg => lg.iso_639_1 == some "en" && strT lg.file_path) with
        | some lg => format_tmdb_image lg.file_path "w300"
        | none =>
          match logos.find? (fun lg => strT lg.file_path) with
          | some lg => format_tmdb_image lg.file_path "w300"
          | none => ""

structure IImgs where
  poster : String
  backdrop : String
  logo : String
deriving DecidableEq, Repr

def format_imdb_images (imdb_id : String) : IImgs :=
  if imdb_id.isEmpty then ⟨"", "", ""⟩
  else
    ⟨"https://images.metahub.space/poster/small/" ++ imdb_id ++ "/img",
     "https://images.metahub.space/background/medium/" ++ imdb_id ++ "/img",
     "https://images.metahub.space/logo/medium/" ++ imdb_id ++ "/img"⟩

def epDefault (season episode : Nat) : String :=
  "S" ++ toString season ++ "E" ++ toString episode

/-- `imdb.get("releaseDetailed", {}).get("year", 0)`: a `None` value for
`releaseDetailed` makes the chained `.get` raise. -/
def relYear (f : Fd RelDet) : Except Unit (Option Nat) :=
  match f with
  | .absent => .ok (some 0)
  | .null => .error ()
  | .val r => .ok (fdGet r.year 0)

/-- `imdb.get("rating", {}).get("star", 0)`. -/
def ratStar (f : Fd IRating) : Except Unit (Option Int) :=
  match f with
  | .absent => .ok (some 0)
  | .null => .error ()
  | .val r => .ok (fdGet r.star 0)

/-- `imdb.get("moviedb_id") or imdb_id.replace("tt", "")`. -/
def imdbTmdbIdField (im : ImdbDict) (sid : String) : TmdbIdV :=
  match fdOpt im.moviedb_id with
  | some n => if n != 0 then .tnum n else .tstr (pyReplaceTT sid)
  | none => .tstr (pyReplaceTT sid)

/-! ## Normalizer: the four return-dict builders -/

/-- TMDb movie mode return dict (lines 479-495). -/
def movieTmdbBuild (movie : TmdbMovie) (quality encoded_string : Option String) :
    MovieMeta :=
  let cast_names := ((movie.credits.bind Credits.cast).getD []).map
    (fun c => if strT c.name then c.name else c.original_name)
  let runtime :=
    match movie.runtime with
    | some n => if n != 0 then toString n ++ " min" else ""
    | none => ""
  { tmdb_id := .tnum movie.id
    imdb_id := movie.external_ids.bind ExtIds.imdb_id
    title := movie.title
    year := some (match movie.release_date with | some d => d.y | none => 0)
    rate := some (movie.vote_average.getD 0)
    description := some (pyOrStr movie.overview "")
    poster := format_tmdb_image movie.poster_path "w500"
    backdrop := format_tmdb_image movie.backdrop_path "original"
    logo := get_tmdb_logo movie.images
    cast := some cast_names
    runtime := runtime
    media_type := "movie"
    genres := some ((movie.genres.getD []).map Genre.name)
    quality := quality
    encoded_string := encoded_string }

/-- TMDb tv mode return dict (lines 323-351). -/
def tvTmdbBuild (tv : TmdbTv) (ep : EpTV) (season episode : Nat)
    (quality encoded_string : Option String) : TvMeta :=
  let cast := ((tv.credits.bind Credits.cast).getD []).map
    (fun c => if strT c.name then c.name else c.original_name)
  let ep_runtime : Option Nat :=
    if epT ep then (match ep with | .e (some o) => o.runtime | _ => none) else none
  let series_runtime : Option Nat :=
    match tv.episode_run_time with
    | some (x :: _) => some x
    | _ => none
  let rv : Option Nat := if natT ep_runtime then ep_runtime else series_runtime
  let runtime := if natT rv then toString (rv.getD 0) ++ " min" else ""
  { tmdb_id := .tnum tv.id
    imdb_id := tv.external_ids.bind ExtIds.imdb_id
    title := tv.name
    year := some (match tv.first_air_date with | some d => d.y | none => 0)
    rate := some (tv.vote_average.getD 0)
    description := some (pyOrStr tv.overview "")
    poster := format_tmdb_image tv.poster_path "w500"
    backdrop := format_tmdb_image tv.backdrop_path "original"
    logo := get_tmdb_logo tv.images
    genres := some ((tv.genres.getD []).map Genre.name)
    media_type := "tv"
    cast := some cast
    runtime := runtime
    season_number := season
    episode_number := episode
    episode_title :=
      if epT ep then
        (match ep with
         | .e (some o) => o.name
         | .wi _ => some (epDefault season episode)
         | .e none => some (epDefault season episode))
      else some (epDefault season episode)
    episode_backdrop :=
      some (if epT ep then
        (match ep with
         | .e (some o) => format_tmdb_image o.still_path "original"
         | _ => "")
      else "")
    episode_overview :=
      if epT ep then
        (match ep with
         | .e (some o) => o.overview
         | _ => some "")
      else some ""
    episode_released :=
      (match ep with
       | .e (some o) => (match o.air_date with | some d => strfRender d | none => "")
       | _ => "")
    quality := quality
    encoded_string := encoded_string }

/-- IMDb movie mode return dict (lines 500-519). -/
def imdbMovieBuild (sid title : String) (im : ImdbDict)
    (quality encoded_string : Option String) : Except Unit MovieMeta := do
  let imgs := format_imdb_images sid
  let yr ← relYear im.releaseDetailed
  let rt ← ratStar im.rating
  Except.ok {
    tmdb_id := imdbTmdbIdField im sid
    imdb_id := some sid
    title := fdGet im.title title
    year := yr
    rate := rt
    description := fdGet im.plot ""
    poster := imgs.poster
    backdrop := imgs.backdrop
    logo := imgs.logo
    cast := (fdGet im.cast []).map (fun l => l.map some)
    runtime := pyOrStr (fdOpt im.runtime) ""
    media_type := "movie"
    genres := (fdGet im.genre []).map (fun l => l.map some)
    quality := quality
    encoded_string := encoded_string }

/-- IMDb tv mode return dict (lines 356-385). -/
def imdbTvBuild (sid title : String) (im : ImdbDict) (ep : EpDict)
    (season episode : Nat) (quality encoded_string : Option String) :
    Except Unit TvMeta := do
  let imgs := format_imdb_images sid
  let yr ← relYear im.releaseDetailed
  let rt ← ratStar im.rating
  Except.ok {
    tmdb_id := imdbTmdbIdField im sid
    imdb_id := some sid
    title := fdGet im.title title
    year := yr
    rate := rt
    description := fdGet im.plot ""
    poster := imgs.poster
    backdrop := imgs.backdrop
    logo := imgs.logo
    cast := (fdGet im.cast []).map (fun l => l.map some)
    runtime := pyOrStr (fdOpt im.runtime) ""
    genres := (fdGet im.genre []).map (fun l => l.map some)
    media_type := "tv"
    season_number := season
    episode_number := episode
    episode_title := fdGet ep.title (epDefault season episode)
    episode_backdrop := fdGet ep.image ""
    episode_overview := fdGet ep.plot ""
    episode_released :=
      (match ep.released with
       | .absent => ""
       | .null => "None"
       | .val s => s)
    quality := quality
    encoded_string := encoded_string }

/-- `imdb = imdb_tv or {}` / `ep = imdb_ep or {}` followed by the dict
build; a raw string or a dataclass in place of a dict raises at the first
`.get`. -/
def imdbTvMode (sid title : String) (imdb_tv : DetV) (imdb_ep : EpIV)
    (season episode : Nat) (quality encoded_string : Option String) :
    Except Unit MetaOut := do
  let im ← (match imdb_tv with
    | .strv s => if s.isEmpty then Except.ok emptyImdbDict else Except.error ()
    | .dic none => Except.ok emptyImdbDict
    | .dic (some d) => Except.ok d)
  let ep ← (match imdb_ep with
    | .di none => Except.ok emptyEpDict
    | .di (some d) => Except.ok d
    | .wo _ => Except.error ())
  (imdbTvBuild sid title im ep season episode quality encoded_string).map MetaOut.tv

def imdbMovieMode (sid title : String) (imdb_details : DetV)
    (quality encoded_string : Option String) : Except Unit MetaOut := do
  let im ← (match imdb_details with
    | .strv s => if s.isEmpty then Except.ok emptyImdbDict else Except.error ()
    | .dic none => Except.ok emptyImdbDict
    | .dic (some d) => Except.ok d)
  (imdbMovieBuild sid title im quality encoded_string).map MetaOut.movie

/-! ## Cached provider wrappers -/

/-- `safe_imdb_search` (lines 72-84).  Note: an exception path returns
`None` without writing the cache. -/
def safe_imdb_search (env : Env) (title type_ : String) : M PyIdV := do
  let key := "imdb::" ++ type_ ++ "::" ++ title
  let σ ← getM
  match σ.imdbC.lookup key with
  | some (.idv none) => M.pure .nilv
  | some (.idv (some s)) => M.pure (.str s)
  | some (.detv none) => M.pure .nilv
  | some (.detv (some d)) => M.pure (.dictv d)
  | none =>
    tryM (do
      logCall .cImdbSearch
      match env.searchTitle title type_ with
      | .error _ => throwM
      | .ok none => do
        modifyM (putI key (.idv none))
        M.pure .nilv
      | .ok (some .emptyD) => do
        modifyM (putI key (.idv none))
        M.pure .nilv
      | .ok (some (.withId f)) =>
        match f with
        | .absent => throwM
        | .null => do
          modifyM (putI key (.idv none))
          M.pure .nilv
        | .val s => do
          modifyM (putI key (.idv (some s)))
          M.pure (.str s))
      (fun _ => M.pure .nilv)

/-- `safe_tmdb_search` (lines 86-102): faults are negatively cached. -/
def safe_tmdb_search (env : Env) (title type_ : String) (year : Option Nat) :
    M (Option TRes) := do
  let key := (type_, title, year)
  let σ ← getM
  match σ.tsC.lookup key with
  | some v => M.pure v
  | none => do
    logCall .cTmdbSearch
    match (if type_ == "movie" then
            env.tmdbSearchMovies title (if natT year then year else none)
          else env.tmdbSearchTv title) with
    | .error _ => do
      modifyM (putTS key none)
      M.pure none
    | .ok results => do
      modifyM (putTS key results.head?)
      M.pure results.head?

/-- `_tmdb_movie_details` (lines 104-120). -/
def tmdb_movie_details (env : Env) (movie_id : Nat) : M MovV := do
  let σ ← getM
  match σ.tdC.lookup movie_id with
  | some (.mov v) => M.pure (.m v)
  | some (.tvv none) => M.pure (.m none)
  | some (.tvv (some t)) => M.pure (.wtv t)
  | none => do
    logCall .cTmdbDetails
    match env.tmdbMovieDetails movie_id with
    | .error _ => do
      modifyM (putTD movie_id (.mov none))
      M.pure (.m none)
    | .ok none => do
      modifyM (putTD movie_id (.mov none))
      M.pure (.m none)
    | .ok (some d) =>
      match env.tmdbMovieImages movie_id with
      | .error _ => do
        modifyM (putTD movie_id (.mov none))
        M.pure (.m none)
      | .ok imgs => do
        let d' := { d with images := some imgs }
        modifyM (putTD movie_id (.mov (some d')))
        M.pure (.m (some d'))

/-- `_tmdb_tv_details` (lines 123-138). -/
def tmdb_tv_details (env : Env) (tv_id : Nat) : M TvV := do
  let σ ← getM
  match σ.tdC.lookup tv_id with
  | some (.tvv v) => M.pure (.t v)
  | some (.mov none) => M.pure (.t none)
  | some (.mov (some mv)) => M.pure (.wm mv)
  | none => do
    logCall .cTmdbDetails
    match env.tmdbTvDetails tv_id with
    | .error _ => do
      modifyM (putTD tv_id (.tvv none))
      M.pure (.t none)
    | .ok none => do
      modifyM (putTD tv_id (.tvv none))
      M.pure (.t none)
    | .ok (some d) =>
      match env.tmdbTvImages tv_id with
      | .error _ => do
        modifyM (putTD tv_id (.tvv none))
        M.pure (.t none)
      | .ok imgs => do
        let d' := { d with images := some imgs }
        modifyM (putTD tv_id (.tvv (some d')))
        M.pure (.t (some d'))

/-- `_tmdb_episode_details` (lines 141-152): faults are negatively
cached. -/
def tmdb_episode_details (env : Env) (tv_id season episode : Nat) : M EpTV := do
  let key := EKey.tk (tv_id, season, episode)
  let σ ← getM
  match σ.epC.lookup key with
  | some (.tev v) => M.pure (.e v)
  | some (.iev none) => M.pure (.e none)
  | some (.iev (some d)) => M.pure (.wi d)
  | none => do
    logCall .cTmdbEpisode
    match env.tmdbEpisodeDetails tv_id season episode with
    | .error _ => do
      modifyM (putE key (.tev none))
      M.pure (.e none)
    | .ok v => do
      modifyM (putE key (.tev v))
      M.pure (.e v)

/-! ## TMDb modes of the two fetchers -/

/-- The detail/episode/build part of TMDb tv mode, for a known id. -/
def tvTmdbFetch (env : Env) (tid season episode : Nat)
    (quality encoded_string : Option String) : M (Option MetaOut) := do
  let tvv ← tmdb_tv_details env tid
  match tvv with
  | .t none => M.pure none
  | .t (some tv) => do
    let ep ← tmdb_episode_details env tid season episode
    M.pure (some (.tv (tvTmdbBuild tv ep season episode quality encoded_string)))
  | .wm _ => do
    let _ ← tmdb_episode_details env tid season episode
    throwM

/-- TMDb mode of `fetch_tv_metadata` (lines 287-351). -/
def tvTmdbMode (env : Env) (title : String) (season episode : Nat)
    (year : Option Nat) (quality encoded_string : Option String)
    (tmdb_id : Option Nat) : M (Option MetaOut) := do
  if natT tmdb_id then
    tvTmdbFetch env (tmdb_id.getD 0) season episode quality encoded_string
  else do
    let r ← safe_tmdb_search env title "tv" year
    match r with
    | none => M.pure none
    | some res => tvTmdbFetch env res.id season episode quality encoded_string

/-- The detail/build part of TMDb movie mode, for a known id. -/
def movieTmdbFetch (env : Env) (tid : Nat)
    (quality encoded_string : Option String) : M (Option MetaOut) := do
  let mv ← tmdb_movie_details env tid
  match mv with
  | .m none => M.pure none
  | .m (some movie) =>
    M.pure (some (.movie (movieTmdbBuild movie quality encoded_string)))
  | .wtv _ => throwM

/-- TMDb mode of `fetch_movie_metadata` (lines 451-495). -/
def movieTmdbMode (env : Env) (title : String) (year : Option Nat)
    (quality encoded_string : Option String) (tmdb_id : Option Nat) :
    M (Option MetaOut) := do
  if natT tmdb_id then
    movieTmdbFetch env (tmdb_id.getD 0) quality encoded_string
  else do
    let r ← safe_tmdb_search env title "movie" year
    match r with
    | none => M.pure none
    | some res => movieTmdbFetch env res.id quality encoded_string

/-! ## The two fetchers and the orchestrator -/

/-- Steps 2-6 of `fetch_tv_metadata`, after the default-id classification
produced `imdb_id0` / `tmdb_id0` / `use_tmdb0`. -/
def fetch_tv_core (env : Env) (title : String) (season episode : Nat)
    (encoded_string : Option String) (year : Option Nat)
    (quality : Option String) (imdb_id0 : PyIdV) (tmdb_id0 : Option Nat)
    (use_tmdb0 : Bool) : M (Option MetaOut) := do
  let su ←
    (if !pyIdT imdb_id0 && !natT tmdb_id0 then do
      let r ← safe_imdb_search env title "tvSeries"
      M.pure (r, !pyIdT r)
    else M.pure (imdb_id0, use_tmdb0))
  let imdb_id1 := su.1
  let use_tmdb1 := su.2
  let fet ←
    (if pyIdT imdb_id1 && !use_tmdb1 then
      tryM (do
        match imdb_id1 with
        | .dictv _ => throwM
        | .nilv => throwM
        | .str sid => do
          let σ ← getM
          let tvv ← (match σ.imdbC.lookup sid with
            | some (.detv v) => M.pure (DetV.dic v)
            | some (.idv none) => M.pure (DetV.dic none)
            | some (.idv (some s)) => M.pure (DetV.strv s)
            | none => do
              logCall .cImdbDetail
              match env.getDetail sid "tvSeries" with
              | .error _ => throwM
              | .ok v => do
                modifyM (putI sid (.detv v))
                M.pure (DetV.dic v))
          let epk := EKey.sk (sid ++ "::" ++ toString season ++ "::" ++ toString episode)
          let σ2 ← getM
          let epv ← (match σ2.epC.lookup epk with
            | some (.iev v) => M.pure (EpIV.di v)
            | some (.tev none) => M.pure (EpIV.di none)
            | some (.tev (some o)) => M.pure (EpIV.wo o)
            | none => do
              logCall .cImdbSeason
              match env.getSeason sid season episode with
              | .error _ => throwM
              | .ok v => do
                modifyM (putE epk (.iev v))
                M.pure (EpIV.di v))
          M.pure (tvv, epv, use_tmdb1))
        (fun _ => M.pure (DetV.dic none, EpIV.di none, true))
    else M.pure (DetV.dic none, EpIV.di none, use_tmdb1))
  let imdb_tv := fet.1
  let imdb_ep := fet.2.1
  let use_tmdb2 := fet.2.2
  let must_use_tmdb := use_tmdb2 || detIsNone imdb_tv || detIsEmpty imdb_tv
  if must_use_tmdb then
    tvTmdbMode env title season episode year quality encoded_string tmdb_id0
  else
    match imdb_id1 with
    | .str sid =>
      liftE ((imdbTvMode sid title imdb_tv imdb_ep season episode quality
        encoded_string).map some)
    | _ => throwM

/-- `fetch_tv_metadata` (lines 221-385). -/
def fetch_tv_metadata (env : Env) (title : String) (season episode : Nat)
    (encoded_string : Option String) (year : Option Nat)
    (quality : Option String) (default_id : Option String) :
    M (Option MetaOut) :=
  let idt : PyIdV × Option Nat × Bool :=
    match default_id with
    | some d =>
      if !d.isEmpty then
        if startsWithTT d then (.str d, none, false)
        else if isDigits d then (.nilv, some (pyInt d), true)
        else (.nilv, none, false)
      else (.nilv, none, false)
    | none => (.nilv, none, false)
  fetch_tv_core env title season episode encoded_string year quality
    idt.1 idt.2.1 idt.2.2

/-- `fetch_movie_metadata` (lines 389-519); the movie variant applies
`.strip()` to the default id. -/
def fetch_movie_metadata (env : Env) (title : String)
    (encoded_string : Option String) (year : Option Nat)
    (quality : Option String) (default_id : Option String) :
    M (Option MetaOut) := do
  let idt : PyIdV × Option Nat × Bool :=
    match default_id with
    | some d =>
      if !d.isEmpty then
        let dt := pyStrip d
        if startsWithTT dt then (.str dt, none, false)
        else if isDigits dt then (.nilv, some (pyInt dt), true)
        else (.nilv, none, false)
      else (.nilv, none, false)
    | none => (.nilv, none, false)
  let imdb_id0 := idt.1
  let tmdb_id0 := idt.2.1
  let use_tmdb0 := idt.2.2
  let su ←
    (if !pyIdT imdb_id0 && !natT tmdb_id0 then do
      let q := match year with
        | some y => if y != 0 then title ++ " " ++ toString y else title
        | none => title
      let r ← safe_imdb_search env q "movie"
      M.pure (r, !pyIdT r)
    else M.pure (imdb_id0, use_tmdb0))
  let imdb_id1 := su.1
  let use_tmdb1 := su.2
  let det ←
    (if pyIdT imdb_id1 && !use_tmdb1 then
      tryM (do
        match imdb_id1 with
        | .dictv _ => throwM
        | .nilv => throwM
        | .str sid => do
          let σ ← getM
          let dv ← (match σ.imdbC.lookup sid with
            | some (.detv v) => M.pure (DetV.dic v)
            | some (.idv none) => M.pure (DetV.dic none)
            | some (.idv (some s)) => M.pure (DetV.strv s)
            | none => do
              logCall .cImdbDetail
              match env.getDetail sid "movie" with
              | .error _ => throwM
              | .ok v => do
                modifyM (putI sid (.detv v))
                M.pure (DetV.dic v))
          M.pure (dv, use_tmdb1))
        (fun _ => M.pure (DetV.dic none, true))
    else M.pure (DetV.dic none, use_tmdb1))
  let imdb_details := det.1
  let use_tmdb2 := det.2
  let must_use_tmdb := use_tmdb2 || detIsNone imdb_details || detIsEmpty imdb_details
  if must_use_tmdb then
    movieTmdbMode env title year quality encoded_string tmdb_id0
  else
    match imdb_id1 with
    | .str sid =>
      liftE ((imdbMovieMode sid title imdb_details quality encoded_string).map some)
    | _ => throwM

/-- Lines 192-201: the override setting, then the filename, through
`extract_default_id`; exceptions fall through to `None`. -/
def didOf (env : Env) (filename : String) : Option String :=
  match (match env.useDefaultId with
         | .ok u => extract_default_id u
         | .error _ => none) with
  | some d => some d
  | none => extract_default_id filename

/-- Lines 203-207: the reference-token encoder, failure tolerated. -/
def encOf (env : Env) (channel msg_id : Nat) : Option String :=
  match env.encodeString channel msg_id with
  | .ok s => some s
  | .error _ => none

/-- The orchestrator entry point `metadata` (lines 155-218). -/
def metadata (env : Env) (filename : String) (channel msg_id : Nat) :
    M (Option MetaOut) :=
  match env.ptnParse filename with
  | .error _ => M.pure none
  | .ok parsed =>
    if (match parsed.excess with | some e => hasCombined e | none => false) then
      M.pure none
    else if multipart filename then M.pure none
    else if seIsList parsed.season || seIsList parsed.episode then M.pure none
    else if seT parsed.season && !seT parsed.episode then M.pure none
    else if !strT parsed.resolution then M.pure none
    else if !strT parsed.title then M.pure none
    else
      let default_id := didOf env filename
      let encoded_string := encOf env channel msg_id
      let t := parsed.title.getD ""
      tryM
        (if seT parsed.season && seT parsed.episode then
          fetch_tv_metadata env t (seNum parsed.season) (seNum parsed.episode)
            encoded_string parsed.year parsed.resolution default_id
        else
          fetch_movie_metadata env t encoded_string parsed.year parsed.resolution
            default_id)
        (fun _ => M.pure none)

/-! ## Concrete environments and records for witnesses and counterexamples -/

/-- Base environment for concrete witnesses. -/
def E0 : Env where
  ptnParse := fun _ => .error ()
  useDefaultId := .error ()
  searchTitle := fun _ _ => .ok none
  getDetail := fun _ _ => .ok none
  getSeason := fun _ _ _ => .ok none
  tmdbSearchMovies := fun _ _ => .ok []
  tmdbSearchTv := fun _ => .ok []
  tmdbMovieDetails := fun _ => .ok none
  tmdbMovieImages := fun _ => .ok ⟨none⟩
  tmdbTvDetails := fun _ => .ok none
  tmdbTvImages := fun _ => .ok ⟨none⟩
  tmdbEpisodeDetails := fun _ _ _ => .ok none
  encodeString := fun _ _ => .error ()

/-- A parse with a title but no resolution tag. -/
def pNoQuality : Parsed := ⟨some "Some Title", none, none, none, none, none⟩

/-- A parse with an episode but no season. -/
def pEpNoSeason : Parsed :=
  ⟨some "Some Title", none, some (.single 3), none, some "720p", none⟩

def EdetRaise : Env := { E0 with getDetail := fun _ _ => .error () }

/-- Project the episode title out of a tv resolution result. -/
def epTitleOf (r : Except Unit (Option MetaOut)) : Option (Option String) :=
  match r with
  | .ok (some (.tv t)) => some t.episode_title
  | _ => none

/-- Environment for the C7 counterexample: IMDb has no match, TMDb finds
the show, and the provider supplies an episode record whose `name` is an
explicit null. -/
def EnullEpTitle : Env :=
  { E0 with
    tmdbSearchTv := fun _ => .ok [⟨99⟩]
    tmdbTvDetails := fun _ => .ok (some
      ⟨99, some "T", none, none, none, none, none, none, none, none, none, none⟩)
    tmdbEpisodeDetails := fun _ _ _ => .ok (some ⟨none, none, none, none, none⟩) }

/-- The record `imdbTvBuild` produces at the concrete witness input. -/
def tvBuildW : TvMeta :=
  { tmdb_id := .tstr "1", imdb_id := some "tt1", title := some "T",
    year := some 0, rate := some 0, description := some "",
    poster := "https://images.metahub.space/poster/small/tt1/img",
    backdrop := "https://images.metahub.space/background/medium/tt1/img",
    logo := "https://images.metahub.space/logo/medium/tt1/img",
    cast := some [], runtime := "", genres := some [], media_type := "tv",
    season_number := 1, episode_number := 2, episode_title := some "S1E2",
    episode_backdrop := some "", episode_overview := some "",
    episode_released := "", quality := none, encoded_string := none }

/-- Project the `imdb_id` field out of a resolution result. -/
def imdbIdOf (r : Except Unit (Option MetaOut)) : Option (Option String) :=
  match r with
  | .ok (some (.movie m)) => some m.imdb_id
  | .ok (some (.tv t)) => some t.imdb_id
  | _ => none

def usableDict : ImdbDict :=
  { emptyImdbDict with title := .val "Some Film" }

def EbareOverride : Env :=
  { E0 with
    ptnParse := fun _ => .ok ⟨some "T", none, none, none, some "1080p", none⟩
    useDefaultId := .ok "tt1234567"
    searchTitle := fun _ _ => .ok (some (.withId (.val "tt7654321")))
    getDetail := fun _ _ => .ok (some usableDict) }

def EW3 : Env :=
  { E0 with
    ptnParse := fun _ => .ok ⟨some "T", none, none, none, some "1080p", none⟩
    useDefaultId := .ok "https://www.imdb.com/title/tt1234567/"
    getDetail := fun _ _ => .ok (some usableDict) }

def E4bare : Env :=
  { E0 with
    ptnParse := fun _ => .ok ⟨some "T", none, none, none, some "1080p", none⟩
    useDefaultId := .ok "550" }

def EW4 : Env :=
  { E0 with
    ptnParse := fun _ => .ok ⟨some "T", none, none, none, some "1080p", none⟩
    useDefaultId := .ok "https://www.themoviedb.org/movie/550-fight-club" }

/-- Environment for the C5 counterexample: the IMDb title search raises,
and a raised search is not negatively cached. -/
def EsearchRaise : Env := { E0 with searchTitle := fun _ _ => .error () }

/-- Fault-free environment for the C5 witness. -/
def E5W : Env :=
  { E0 with
    searchTitle := fun _ _ => .ok (some (.withId (.val "tt0903747")))
    getDetail := fun _ _ => .ok (some usableDict)
    getSeason := fun _ _ _ => .ok (some ⟨.val "Pilot", .absent, .absent, .absent, false⟩) }

/-! ## Unfolding lemmas for the monad -/

@[simp] theorem pure_M_def {α : Type} (a : α) : (Pure.pure a : M α) = M.pure a := rfl

@[simp] theorem bind_M_def {α β : Type} (x : M α) (f : α → M β) :
    (Bind.bind x f : M β) = M.bind x f := rfl

@[simp] theorem M_pure_run {α : Type} (a : α) (σ : St) :
    M.pure a σ = (Except.ok a, σ) := rfl

theorem M_bind_run {α β : Type} (x : M α) (f : α → M β) (σ : St) :
    M.bind x f σ =
      (match x σ with
       | (.ok a, σ') => f a σ'
       | (.error e, σ') => (.error e, σ')) := rfl

theorem M_bind_run_ok {α β : Type} {x : M α} {f : α → M β} {σ σ' : St} {a : α}
    (h : x σ = (.ok a, σ')) : M.bind x f σ = f a σ' := by
  simp [M.bind, h]

theorem M_bind_run_err {α β : Type} {x : M α} {f : α → M β} {σ σ' : St}
    (h : x σ = (.error (), σ')) : M.bind x f σ = (.error (), σ') := by
  simp [M.bind, h]

@[simp] theorem getM_run (σ : St) : getM σ = (.ok σ, σ) := rfl

@[simp] theorem modifyM_run (f : St → St) (σ : St) : modifyM f σ = (.ok (), f σ) := rfl

@[simp] theorem throwM_run {α : Type} (σ : St) : (throwM : M α) σ = (.error (), σ) := rfl

@[simp] theorem liftE_run {α : Type} (e : Except Unit α) (σ : St) : liftE e σ = (e, σ) := rfl

theorem tryM_run {α : Type} (x : M α) (h : Unit → M α) (σ : St) :
    tryM x h σ =
      (match x σ with
       | (.error _, σ') => h () σ'
       | r => r) := rfl

theorem tryM_run_ok {α : Type} {x : M α} {σ σ' : St} {a : α} (h' : Unit → M α)
    (h : x σ = (.ok a, σ')) : tryM x h' σ = (.ok a, σ') := by
  simp [tryM, h]

theorem tryM_run_err {α : Type} {x : M α} {σ σ' : St} (h' : Unit → M α)
    (h : x σ = (.error (), σ')) : tryM x h' σ = h' () σ' := by
  simp [tryM, h]

/-- The final `try/except` of `metadata` turns any outcome into `ok`. -/
theorem tryM_total {α : Type} (x : M α) (d : α) (σ : St) :
    ∃ r, (tryM x (fun _ => M.pure d) σ).1 = Except.ok r := by
  rcases h : x σ with ⟨e, σ'⟩
  cases e with
  | ok a => exact ⟨a, by simp [tryM, h]⟩
  | error e => exact ⟨d, by simp [tryM, h]⟩

theorem beq_sk_tk (s : String) (t : Nat × Nat × Nat) :
    (EKey.sk s == EKey.tk t) = false := by
  simp [beq_eq_false_iff_ne]

theorem beq_tk_sk (t : Nat × Nat × Nat) (s : String) :
    (EKey.tk t == EKey.sk s) = false := by
  simp [beq_eq_false_iff_ne]

/-! ## Claim theorems -/

/-- C1: for every filename, channel and message identifier, and every
behaviour of the external collaborators (the parser and any provider call
may raise or return null), `metadata` never propagates an exception: from
any cache state it evaluates to `Except.ok` with either a record or
`none`. -/
theorem metadata_never_raises (env : Env) (filename : String)
    (channel msg_id : Nat) (σ : St) :
    ∃ r, (metadata env filename channel msg_id σ).1 = Except.ok r := by
  unfold metadata
  cases hp : env.ptnParse filename with
  | error e => exact ⟨none, rfl⟩
  | ok parsed =>
    simp only
    split_ifs <;> first
      | exact ⟨none, rfl⟩
      | exact tryM_total _ none σ

/-- C2: when the parse succeeds but carries no truthy quality/resolution
tag, `metadata` returns `ok none` and neither the caches nor the
outbound-call trace change: zero provider calls are issued. -/
theorem metadata_no_quality (env : Env) (filename : String)
    (channel msg_id : Nat) (σ : St) (parsed : Parsed)
    (hp : env.ptnParse filename = .ok parsed)
    (hq : ¬ strT parsed.resolution = true) :
    metadata env filename channel msg_id σ = (Except.ok none, σ) := by
  unfold metadata
  rw [hp]
  simp only
  split_ifs <;> simp_all [M.pure]

/-- Witness for C2 at a concrete input. -/
theorem metadata_no_quality_witness :
    metadata { E0 with ptnParse := fun _ => .ok pNoQuality } "f.mkv" 0 0 emptySt
      = (Except.ok none, emptySt) :=
  metadata_no_quality _ "f.mkv" 0 0 emptySt pNoQuality rfl (by decide)

/-- Inversion for a successful bind. -/
theorem M_bind_fst_ok {α β : Type} {x : M α} {f : α → M β} {σ : St} {b : β}
    (h : (M.bind x f σ).1 = Except.ok b) :
    ∃ a σ', x σ = (Except.ok a, σ') ∧ (f a σ').1 = Except.ok b := by
  rcases hx : x σ with ⟨e, σ'⟩
  cases e with
  | ok a => exact ⟨a, σ', rfl, by simpa [M.bind, hx] using h⟩
  | error e => simp [M.bind, hx] at h

theorem imdbMovieBuild_media {sid title : String} {im : ImdbDict}
    {q e : Option String} {mm : MovieMeta}
    (h : imdbMovieBuild sid title im q e = Except.ok mm) :
    mm.media_type = "movie" := by
  unfold imdbMovieBuild at h
  cases hy : relYear im.releaseDetailed with
  | error u => simp [hy, Bind.bind, Except.bind] at h
  | ok yv =>
    cases hr : ratStar im.rating with
    | error u => simp [hy, hr, Bind.bind, Except.bind] at h
    | ok rv =>
      simp only [hy, hr, Bind.bind, Except.bind, Except.ok.injEq] at h
      subst h
      rfl

theorem imdbMovieMode_media {sid title : String} {det : DetV}
    {q e : Option String} {mo : MetaOut}
    (h : imdbMovieMode sid title det q e = Except.ok mo) :
    ∃ mm, mo = MetaOut.movie mm ∧ mm.media_type = "movie" := by
  have key : ∀ im : ImdbDict,
      Except.map MetaOut.movie (imdbMovieBuild sid title im q e) = Except.ok mo →
      ∃ mm, mo = MetaOut.movie mm ∧ mm.media_type = "movie" := by
    intro im hmi
    cases hb : imdbMovieBuild sid title im q e with
    | error u => rw [hb] at hmi; simp [Except.map] at hmi
    | ok mm =>
      rw [hb] at hmi
      simp only [Except.map, Except.ok.injEq] at hmi
      exact ⟨mm, hmi.symm, imdbMovieBuild_media hb⟩
  unfold imdbMovieMode at h
  rcases det with v | s
  · rcases v with _ | d
    · exact key emptyImdbDict (by simpa [Bind.bind, Except.bind] using h)
    · exact key d (by simpa [Bind.bind, Except.bind] using h)
  · by_cases hs : s.isEmpty
    · exact key emptyImdbDict (by simpa [hs, Bind.bind, Except.bind] using h)
    · simp [hs, Bind.bind, Except.bind] at h

theorem movieTmdbFetch_media {env : Env} {tid : Nat} {q e : Option String}
    {σ : St} {mo : MetaOut}
    (h : (movieTmdbFetch env tid q e σ).1 = Except.ok (some mo)) :
    ∃ mm, mo = MetaOut.movie mm ∧ mm.media_type = "movie" := by
  unfold movieTmdbFetch at h
  simp only [bind_M_def, pure_M_def] at h
  obtain ⟨mv, σ', hmv, h⟩ := M_bind_fst_ok h
  rcases mv with v | t
  · rcases v with _ | movie
    · simp [M.pure] at h
    · refine ⟨movieTmdbBuild movie q e, ?_, rfl⟩
      simp [M.pure] at h
      exact h.symm
  · simp [throwM] at h

theorem movieTmdbMode_media {env : Env} {title : String} {year : Option Nat}
    {q e : Option String} {tmdb_id : Option Nat} {σ : St} {mo : MetaOut}
    (h : (movieTmdbMode env title year q e tmdb_id σ).1 = Except.ok (some mo)) :
    ∃ mm, mo = MetaOut.movie mm ∧ mm.media_type = "movie" := by
  unfold movieTmdbMode at h
  by_cases hn : natT tmdb_id = true
  · rw [if_pos hn] at h
    exact movieTmdbFetch_media h
  · rw [if_neg hn] at h
    simp only [bind_M_def, pure_M_def] at h
    obtain ⟨r, σ', hr, h⟩ := M_bind_fst_ok h
    rcases r with _ | res
    · simp [M.pure] at h
    · exact movieTmdbFetch_media h

/-- Any record produced by `fetch_movie_metadata` is movie-tagged. -/
theorem fetch_movie_media {env : Env} {title : String} {enc : Option String}
    {year : Option Nat} {quality did : Option String} {σ : St} {mo : MetaOut}
    (h : (fetch_movie_metadata env title enc year quality did σ).1
          = Except.ok (some mo)) :
    ∃ mm, mo = MetaOut.movie mm ∧ mm.media_type = "movie" := by
  unfold fetch_movie_metadata at h
  simp only [bind_M_def, pure_M_def] at h
  obtain ⟨su, σ1, hsu, h⟩ := M_bind_fst_ok h
  obtain ⟨det, σ2, hdet, h⟩ := M_bind_fst_ok h
  by_cases hm : (det.2 || detIsNone det.1 || detIsEmpty det.1) = true
  · rw [if_pos hm] at h
    exact movieTmdbMode_media h
  · rw [if_neg hm] at h
    rcases hid : su.1 with s | _ | d <;> rw [hid] at h
    · simp only [liftE_run] at h
      cases hb : imdbMovieMode s title det.1 quality enc with
      | error u => simp [hb, Except.map] at h
      | ok v =>
        have : v = mo := by simpa [hb, Except.map] using h
        exact this ▸ imdbMovieMode_media hb
    · simp [throwM] at h
    · simp [throwM] at h

theorem tryM_none_some {x : M (Option MetaOut)} {σ : St} {mo : MetaOut}
    (h : (tryM x (fun _ => M.pure none) σ).1 = Except.ok (some mo)) :
    ∃ σ', x σ = (Except.ok (some mo), σ') := by
  rcases hx : x σ with ⟨e, σ'⟩
  cases e with
  | ok a =>
    refine ⟨σ', ?_⟩
    have : a = some mo := by simpa [tryM, hx] using h
    rw [this]
  | error e => simp [tryM, hx, M.pure] at h

/-- C10: a parse with an episode number but no season number is not
rejected: `metadata` routes it through `fetch_movie_metadata` (the tv path
needs both season and episode truthy), and any record it produces is
movie-tagged with `media_type = "movie"`. -/
theorem metadata_episode_without_season (env : Env) (filename : String)
    (channel msg_id : Nat) (σ : St) (parsed : Parsed) (e : Nat)
    (hp : env.ptnParse filename = .ok parsed)
    (hs : parsed.season = none)
    (he : parsed.episode = some (.single e))
    (hc : (match parsed.excess with
           | some x => hasCombined x
           | none => false) = false)
    (hm : multipart filename = false)
    (hq : strT parsed.resolution = true)
    (ht : strT parsed.title = true) :
    metadata env filename channel msg_id σ =
      tryM (fetch_movie_metadata env (parsed.title.getD "") (encOf env channel msg_id)
        parsed.year parsed.resolution (didOf env filename)) (fun _ => M.pure none) σ
    ∧ ∀ mo, (metadata env filename channel msg_id σ).1 = Except.ok (some mo) →
        ∃ mm, mo = MetaOut.movie mm ∧ mm.media_type = "movie" := by
  have hroute : metadata env filename channel msg_id σ =
      tryM (fetch_movie_metadata env (parsed.title.getD "") (encOf env channel msg_id)
        parsed.year parsed.resolution (didOf env filename)) (fun _ => M.pure none) σ := by
    unfold metadata
    rw [hp]
    simp [hc, hm, hs, he, hq, ht, seIsList, seT]
  refine ⟨hroute, fun mo hmo => ?_⟩
  rw [hroute] at hmo
  obtain ⟨σ', hx⟩ := tryM_none_some hmo
  exact fetch_movie_media (by rw [hx])

/-- Witness for C10 at a concrete input. -/
theorem metadata_episode_without_season_witness :
    metadata { E0 with ptnParse := fun _ => .ok pEpNoSeason } "f.mkv" 0 0 emptySt =
      tryM (fetch_movie_metadata { E0 with ptnParse := fun _ => .ok pEpNoSeason }
        "Some Title" none none (some "720p") none) (fun _ => M.pure none) emptySt :=
  (metadata_episode_without_season _ "f.mkv" 0 0 emptySt pEpNoSeason 3 rfl rfl rfl
    (by decide) (by decide) (by decide) (by decide)).1

/-- C9: in the Provider B (TMDb) path, a failed title search (no result or
fault, both surfacing as `none`) is terminal and yields `null`; likewise a
failed full-detail fetch for a known TMDb id yields `null` — for both the
movie and the tv flow. -/
theorem tmdb_failures_terminal (env : Env) (σ : St) (title : String)
    (year : Option Nat) (q enc : Option String) (season episode n : Nat) :
    ((safe_tmdb_search env title "movie" year σ).1 = Except.ok none →
      (movieTmdbMode env title year q enc none σ).1 = Except.ok none)
    ∧ ((tmdb_movie_details env n σ).1 = Except.ok (.m none) → n ≠ 0 →
      (movieTmdbMode env title year q enc (some n) σ).1 = Except.ok none)
    ∧ ((safe_tmdb_search env title "tv" year σ).1 = Except.ok none →
      (tvTmdbMode env title season episode year q enc none σ).1 = Except.ok none)
    ∧ ((tmdb_tv_details env n σ).1 = Except.ok (.t none) → n ≠ 0 →
      (tvTmdbMode env title season episode year q enc (some n) σ).1 = Except.ok none) := by
  refine ⟨?_, ?_, ?_, ?_⟩
  · intro h
    unfold movieTmdbMode
    rcases hx : safe_tmdb_search env title "movie" year σ with ⟨e, σ'⟩
    rw [hx] at h
    simp only at h
    subst h
    simp only [natT, Bool.false_eq_true, if_false, bind_M_def]
    rw [M_bind_run_ok hx]
    simp
  · intro h hn
    unfold movieTmdbMode movieTmdbFetch
    rcases hx : tmdb_movie_details env n σ with ⟨e, σ'⟩
    rw [hx] at h
    simp only at h
    subst h
    have : natT (some n) = true := by simp [natT]; omega
    simp only [this, if_true, bind_M_def, Option.getD]
    rw [M_bind_run_ok hx]
    simp
  · intro h
    unfold tvTmdbMode
    rcases hx : safe_tmdb_search env title "tv" year σ with ⟨e, σ'⟩
    rw [hx] at h
    simp only at h
    subst h
    simp only [natT, Bool.false_eq_true, if_false, bind_M_def]
    rw [M_bind_run_ok hx]
    simp
  · intro h hn
    unfold tvTmdbMode tvTmdbFetch
    rcases hx : tmdb_tv_details env n σ with ⟨e, σ'⟩
    rw [hx] at h
    simp only at h
    subst h
    have : natT (some n) = true := by simp [natT]; omega
    simp only [this, if_true, bind_M_def, Option.getD]
    rw [M_bind_run_ok hx]
    simp

/-- Witness for C9: concrete environment where the TMDb search finds
nothing; the movie flow resolves to `null`. -/
theorem tmdb_failures_terminal_witness :
    (movieTmdbMode E0 "Some Title" none none none none emptySt).1 = Except.ok none :=
  (tmdb_failures_terminal E0 emptySt "Some Title" none none none 1 2 550).1 rfl

/-- C8: a Provider A (IMDb) detail attempt whose result is null or an
empty dict, or whose fetch raises, is never propagated: the fetcher
transitions to the Provider B (TMDb) mode of that request, with the cache
and trace effects of the failed attempt recorded.  (For the tv flow the
episode lookup still runs after a null/empty detail result, exactly as in
the source.) -/

theorem providerA_unusable_falls_back (env : Env) (σ : St) (title : String)
    (enc : Option String) (year : Option Nat) (q : Option String)
    (sid : String) (season episode : Nat) (d : ImdbDict) (w : Option EpDict)
    (hne : sid.isEmpty = false) (hst : startsWithTT sid = true)
    (htr : pyStrip sid = sid) (hmiss : σ.imdbC.lookup sid = none) :
    (env.getDetail sid "movie" = .error () →
      fetch_movie_metadata env title enc year q (some sid) σ =
        movieTmdbMode env title year q enc none
          { σ with trace := σ.trace ++ [.cImdbDetail] })
    ∧ (env.getDetail sid "movie" = .ok none →
      fetch_movie_metadata env title enc year q (some sid) σ =
        movieTmdbMode env title year q enc none
          { σ with imdbC := (sid, .detv none) :: σ.imdbC,
                   trace := σ.trace ++ [.cImdbDetail] })
    ∧ (env.getDetail sid "movie" = .ok (some d) → d.isEmptyDict = true →
      fetch_movie_metadata env title enc year q (some sid) σ =
        movieTmdbMode env title year q enc none
          { σ with imdbC := (sid, .detv (some d)) :: σ.imdbC,
                   trace := σ.trace ++ [.cImdbDetail] })
    ∧ (env.getDetail sid "tvSeries" = .error () →
      fetch_tv_metadata env title season episode enc year q (some sid) σ =
        tvTmdbMode env title season episode year q enc none
          { σ with trace := σ.trace ++ [.cImdbDetail] })
    ∧ (env.getDetail sid "tvSeries" = .ok none →
       σ.epC.lookup (.sk (sid ++ "::" ++ toString season ++ "::" ++ toString episode)) = none →
       env.getSeason sid season episode = .ok w →
      fetch_tv_metadata env title season episode enc year q (some sid) σ =
        tvTmdbMode env title season episode year q enc none
          { σ with imdbC := (sid, .detv none) :: σ.imdbC,
                   epC := (.sk (sid ++ "::" ++ toString season ++ "::" ++ toString episode), .iev w) :: σ.epC,
                   trace := σ.trace ++ [.cImdbDetail, .cImdbSeason] })
    ∧ (env.getDetail sid "tvSeries" = .ok (some d) → d.isEmptyDict = true →
       σ.epC.lookup (.sk (sid ++ "::" ++ toString season ++ "::" ++ toString episode)) = none →
       env.getSeason sid season episode = .ok w →
      fetch_tv_metadata env title season episode enc year q (some sid) σ =
        tvTmdbMode env title season episode year q enc none
          { σ with imdbC := (sid, .detv (some d)) :: σ.imdbC,
                   epC := (.sk (sid ++ "::" ++ toString season ++ "::" ++ toString episode), .iev w) :: σ.epC,
                   trace := σ.trace ++ [.cImdbDetail, .cImdbSeason] }) := by
  refine ⟨?_, ?_, ?_, ?_, ?_, ?_⟩
  · intro hdet
    unfold fetch_movie_metadata
    simp only [htr, hne, hst, Bool.not_false, if_true, if_false, bind_M_def, pure_M_def]
    simp only [pyIdT, hne, natT, Bool.not_false, Bool.not_true, Bool.false_and,
      Bool.and_self, Bool.and_true, Bool.true_and, Bool.false_eq_true, if_false, if_true]
    simp [M.bind, M.pure, tryM, getM, modifyM, throwM, logCall, putI, hmiss, hdet, hne,
      detIsNone, detIsEmpty]
  · intro hdet
    unfold fetch_movie_metadata
    simp only [htr, hne, hst, Bool.not_false, if_true, if_false, bind_M_def, pure_M_def]
    simp only [pyIdT, hne, natT, Bool.not_false, Bool.not_true, Bool.false_and,
      Bool.and_self, Bool.and_true, Bool.true_and, Bool.false_eq_true, if_false, if_true]
    simp [M.bind, M.pure, tryM, getM, modifyM, throwM, logCall, putI, hmiss, hdet, hne,
      detIsNone, detIsEmpty]
  · intro hdet hempty
    unfold fetch_movie_metadata
    simp only [htr, hne, hst, Bool.not_false, if_true, if_false, bind_M_def, pure_M_def]
    simp only [pyIdT, hne, natT, Bool.not_false, Bool.not_true, Bool.false_and,
      Bool.and_self, Bool.and_true, Bool.true_and, Bool.false_eq_true, if_false, if_true]
    simp [M.bind, M.pure, tryM, getM, modifyM, throwM, logCall, putI, hmiss, hdet, hne,
      detIsNone, detIsEmpty, hempty]
  · intro hdet
    unfold fetch_tv_metadata fetch_tv_core
    simp only [hne, hst, Bool.not_false, if_true, if_false, bind_M_def, pure_M_def]
    simp only [pyIdT, hne, natT, Bool.not_false, Bool.not_true, Bool.false_and,
      Bool.and_self, Bool.and_true, Bool.true_and, Bool.false_eq_true, if_false, if_true]
    simp [M.bind, M.pure, tryM, getM, modifyM, throwM, logCall, putI, putE, hmiss, hdet,
      hne, detIsNone, detIsEmpty]
  · intro hdet hep hseas
    unfold fetch_tv_metadata fetch_tv_core
    simp only [hne, hst, Bool.not_false, if_true, if_false, bind_M_def, pure_M_def]
    simp only [pyIdT, hne, natT, Bool.not_false, Bool.not_true, Bool.false_and,
      Bool.and_self, Bool.and_true, Bool.true_and, Bool.false_eq_true, if_false, if_true]
    simp [M.bind, M.pure, tryM, getM, modifyM, throwM, logCall, putI, putE, hmiss, hdet,
      hep, hseas, hne, detIsNone, detIsEmpty]
  · intro hdet hempty hep hseas
    unfold fetch_tv_metadata fetch_tv_core
    simp only [hne, hst, Bool.not_false, if_true, if_false, bind_M_def, pure_M_def]
    simp only [pyIdT, hne, natT, Bool.not_false, Bool.not_true, Bool.false_and,
      Bool.and_self, Bool.and_true, Bool.true_and, Bool.false_eq_true, if_false, if_true]
    simp [M.bind, M.pure, tryM, getM, modifyM, throwM, logCall, putI, putE, hmiss, hdet,
      hep, hseas, hne, detIsNone, detIsEmpty, hempty]

/-- Witness for C8 at a concrete input. -/
theorem providerA_unusable_falls_back_witness :
    fetch_movie_metadata EdetRaise "T" none none (some "1080p") (some "tt1234567") emptySt =
      movieTmdbMode EdetRaise "T" none (some "1080p") none none
        { emptySt with trace := emptySt.trace ++ [.cImdbDetail] } :=
  (providerA_unusable_falls_back EdetRaise emptySt "T" none none (some "1080p")
    "tt1234567" 1 2 emptyImdbDict none rfl (by decide) rfl rfl).1 rfl

/-- Counterexample for C7: a tv resolution that produces a record whose
provider-supplied episode carries a null title; `episode_title` is null,
not the `"S<season>E<episode>"` default the claim requires. -/
theorem episode_title_null_counterexample :
    epTitleOf (fetch_tv_metadata EnullEpTitle "T" 1 2 none none (some "1080p")
        none emptySt).1 = some none
    ∧ (none : Option String) ≠ some (epDefault 1 2) :=
  ⟨rfl, by decide⟩

/-- C7 (amended): `episode_title` equals the `"S<season>E<episode>"`
default whenever the provider supplies no episode record, or supplies one
without a title entry — in both the Provider A and Provider B output
paths.  An episode record carrying an explicit null title is passed
through as null instead. -/
theorem episode_title_default (season episode : Nat) (sid title : String)
    (im : ImdbDict) (ep : EpDict) (tv : TmdbTv) (tep : EpTV)
    (q enc : Option String) :
    (ep.title = .absent →
      ∀ t, imdbTvBuild sid title im ep season episode q enc = Except.ok t →
        t.episode_title = some (epDefault season episode))
    ∧ (epT tep = false →
      (tvTmdbBuild tv tep season episode q enc).episode_title
        = some (epDefault season episode)) := by
  constructor
  · intro habs t ht
    unfold imdbTvBuild at ht
    cases hy : relYear im.releaseDetailed with
    | error u => simp [hy, Bind.bind, Except.bind] at ht
    | ok yv =>
      cases hr : ratStar im.rating with
      | error u => simp [hy, hr, Bind.bind, Except.bind] at ht
      | ok rv =>
        simp only [hy, hr, Bind.bind, Except.bind, Except.ok.injEq] at ht
        subst ht
        simp [fdGet, habs]
  · intro hf
    unfold tvTmdbBuild
    simp [hf]

/-- Witness for the amended C7, discharging both paths' hypotheses at
concrete inputs. -/
theorem episode_title_default_witness :
    tvBuildW.episode_title = some (epDefault 1 2)
    ∧ (tvTmdbBuild ⟨99, some "T", none, none, none, none, none, none, none, none,
        none, none⟩ (.e none) 1 2 none none).episode_title = some (epDefault 1 2) :=
  ⟨(episode_title_default 1 2 "tt1" "T" emptyImdbDict emptyEpDict
      ⟨99, some "T", none, none, none, none, none, none, none, none, none, none⟩
      (.e none) none none).1 rfl tvBuildW rfl,
   (episode_title_default 1 2 "tt1" "T" emptyImdbDict emptyEpDict
      ⟨99, some "T", none, none, none, none, none, none, none, none, none, none⟩
      (.e none) none none).2 rfl⟩

/-- Counterexample for C3: with the override-identifier setting equal to
the bare string `"tt1234567"`, `extract_default_id` finds nothing (it only
matches URL path segments), a title search runs instead, and the usable
Provider A record found by search yields `imdb_id = "tt7654321"`, not
`"tt1234567"`. -/
theorem override_id_counterexample :
    EbareOverride.useDefaultId = .ok "tt1234567"
    ∧ imdbIdOf (metadata EbareOverride "Some.Movie.mkv" 0 0 emptySt).1
        = some (some "tt7654321")
    ∧ some "tt7654321" ≠ (some "tt1234567" : Option String) :=
  ⟨rfl, rfl, by decide⟩

theorem relYear_notNull {f : Fd RelDet} (h : f ≠ .null) : ∃ yv, relYear f = .ok yv := by
  cases f with
  | absent => exact ⟨some 0, rfl⟩
  | null => exact absurd rfl h
  | val r => exact ⟨fdGet r.year 0, rfl⟩

theorem ratStar_notNull {f : Fd IRating} (h : f ≠ .null) : ∃ rv, ratStar f = .ok rv := by
  cases f with
  | absent => exact ⟨some 0, rfl⟩
  | null => exact absurd rfl h
  | val r => exact ⟨fdGet r.star 0, rfl⟩

theorem imdbMovieBuild_imdbid {sid title : String} {im : ImdbDict}
    {q e : Option String} {mm : MovieMeta}
    (h : imdbMovieBuild sid title im q e = Except.ok mm) :
    mm.imdb_id = some sid := by
  unfold imdbMovieBuild at h
  cases hy : relYear im.releaseDetailed with
  | error u => simp [hy, Bind.bind, Except.bind] at h
  | ok yv =>
    cases hr : ratStar im.rating with
    | error u => simp [hy, hr, Bind.bind, Except.bind] at h
    | ok rv =>
      simp only [hy, hr, Bind.bind, Except.bind, Except.ok.injEq] at h
      subst h
      rfl

theorem imdbMovieMode_run (sid title : String) (q enc : Option String)
    (im : ImdbDict) (hrel : im.releaseDetailed ≠ .null) (hrat : im.rating ≠ .null) :
    ∃ mm : MovieMeta, imdbMovieMode sid title (.dic (some im)) q enc
        = Except.ok (.movie mm) ∧ mm.imdb_id = some sid := by
  obtain ⟨yv, hy⟩ := relYear_notNull hrel
  obtain ⟨rv, hr⟩ := ratStar_notNull hrat
  cases hb : imdbMovieBuild sid title im q enc with
  | error u =>
    exfalso
    unfold imdbMovieBuild at hb
    simp [hy, hr, Bind.bind, Except.bind] at hb
  | ok mm =>
    refine ⟨mm, ?_, imdbMovieBuild_imdbid hb⟩
    unfold imdbMovieMode
    simp [Bind.bind, Except.bind, hb, Except.map]

/-- The usable-detail analogue of the C8 lemma: a nonempty Provider A
detail keeps the resolution in IMDb mode. -/
theorem fetch_movie_usable (env : Env) (σ : St) (title : String)
    (enc : Option String) (year : Option Nat) (q : Option String) (sid : String)
    (d : ImdbDict)
    (hne : sid.isEmpty = false) (hst : startsWithTT sid = true)
    (htr : pyStrip sid = sid) (hmiss : σ.imdbC.lookup sid = none)
    (hdet : env.getDetail sid "movie" = .ok (some d))
    (hdne : d.isEmptyDict = false) :
    fetch_movie_metadata env title enc year q (some sid) σ =
      liftE ((imdbMovieMode sid title (.dic (some d)) q enc).map some)
        { σ with imdbC := (sid, .detv (some d)) :: σ.imdbC,
                 trace := σ.trace ++ [.cImdbDetail] } := by
  unfold fetch_movie_metadata
  simp only [htr, hne, hst, Bool.not_false, if_true, if_false, bind_M_def, pure_M_def]
  simp only [pyIdT, hne, natT, Bool.not_false, Bool.not_true, Bool.false_and,
    Bool.and_self, Bool.and_true, Bool.true_and, Bool.false_eq_true, if_false, if_true]
  simp [M.bind, M.pure, tryM, getM, modifyM, throwM, logCall, putI, hmiss, hdet, hne,
    detIsNone, detIsEmpty, hdne]

/-- C3 (amended): when the override-identifier setting is a URL from
which the resolver extracts `"tt1234567"` (the bare id string extracts
nothing), and Provider A returns a usable record for that id, the output
record's `imdb_id` equals `"tt1234567"` and no Provider B (TMDb) call
occurs: the trace grows by exactly the one IMDb detail call. -/
theorem override_url_uses_imdb_id (env : Env) (σ : St) (filename : String)
    (channel msg_id : Nat) (parsed : Parsed) (u : String) (d : ImdbDict)
    (hu : env.useDefaultId = .ok u)
    (hx : extract_default_id u = some "tt1234567")
    (hp : env.ptnParse filename = .ok parsed)
    (hc : (match parsed.excess with | some x => hasCombined x | none => false) = false)
    (hm : multipart filename = false)
    (hs : parsed.season = none) (he : parsed.episode = none)
    (hq : strT parsed.resolution = true) (ht : strT parsed.title = true)
    (hmiss : σ.imdbC.lookup "tt1234567" = none)
    (hdet : env.getDetail "tt1234567" "movie" = .ok (some d))
    (hdne : d.isEmptyDict = false)
    (hrel : d.releaseDetailed ≠ .null) (hrat : d.rating ≠ .null) :
    imdbIdOf (metadata env filename channel msg_id σ).1 = some (some "tt1234567")
    ∧ (metadata env filename channel msg_id σ).2.trace
        = σ.trace ++ [.cImdbDetail] := by
  have hdid : didOf env filename = some "tt1234567" := by
    unfold didOf
    rw [hu]
    simp [hx]
  have hroute : metadata env filename channel msg_id σ =
      tryM (fetch_movie_metadata env (parsed.title.getD "") (encOf env channel msg_id)
        parsed.year parsed.resolution (some "tt1234567")) (fun _ => M.pure none) σ := by
    unfold metadata
    rw [hp]
    simp [hc, hm, hs, he, hq, ht, seIsList, seT, hdid]
  obtain ⟨mm, hmode, hid⟩ := imdbMovieMode_run "tt1234567" (parsed.title.getD "")
    parsed.resolution (encOf env channel msg_id) d hrel hrat
  have hfetch := fetch_movie_usable env σ (parsed.title.getD "")
    (encOf env channel msg_id) parsed.year parsed.resolution "tt1234567" d rfl
    (by decide) rfl hmiss hdet hdne
  have hXs : fetch_movie_metadata env (parsed.title.getD "") (encOf env channel msg_id)
      parsed.year parsed.resolution (some "tt1234567") σ =
      (Except.ok (some (MetaOut.movie mm)),
        { σ with imdbC := ("tt1234567", .detv (some d)) :: σ.imdbC,
                 trace := σ.trace ++ [.cImdbDetail] }) := by
    rw [hfetch, hmode]
    rfl
  rw [hroute, tryM_run_ok _ hXs]
  exact ⟨by simp [imdbIdOf, hid], rfl⟩

/-- Witness for the amended C3 at a concrete input. -/
theorem override_url_uses_imdb_id_witness :
    imdbIdOf (metadata EW3 "Some.Movie.mkv" 0 0 emptySt).1 = some (some "tt1234567")
    ∧ (metadata EW3 "Some.Movie.mkv" 0 0 emptySt).2.trace
        = emptySt.trace ++ [.cImdbDetail] :=
  override_url_uses_imdb_id EW3 emptySt "Some.Movie.mkv" 0 0
    ⟨some "T", none, none, none, some "1080p", none⟩
    "https://www.imdb.com/title/tt1234567/" usableDict rfl rfl rfl (by decide)
    (by decide) rfl rfl (by decide) (by decide) rfl rfl (by decide) (by decide)
    (by decide)

theorem imdbCallCount_append_tmdb (t : List Call) (c : Call) (h : c.isImdb = false) :
    imdbCallCount (t ++ [c]) = imdbCallCount t := by
  simp [imdbCallCount, List.countP_append, List.countP_cons, h]

theorem safe_tmdb_search_no_imdb (env : Env) (t ty : String) (y : Option Nat) (σ : St) :
    imdbCallCount (safe_tmdb_search env t ty y σ).2.trace = imdbCallCount σ.trace := by
  unfold safe_tmdb_search
  simp only [bind_M_def, pure_M_def]
  cases hl : σ.tsC.lookup (ty, t, y) with
  | some v => simp [M.bind, M.pure, getM, hl]
  | none =>
    cases hr : (if ty == "movie" then
        env.tmdbSearchMovies t (if natT y then y else none)
      else env.tmdbSearchTv t) with
    | error u =>
      simp [M.bind, M.pure, getM, hl, hr, logCall, modifyM, putTS,
        imdbCallCount_append_tmdb, Call.isImdb]
    | ok rs =>
      simp [M.bind, M.pure, getM, hl, hr, logCall, modifyM, putTS,
        imdbCallCount_append_tmdb, Call.isImdb]

theorem tmdb_movie_details_no_imdb (env : Env) (n : Nat) (σ : St) :
    imdbCallCount (tmdb_movie_details env n σ).2.trace = imdbCallCount σ.trace := by
  unfold tmdb_movie_details
  simp only [bind_M_def, pure_M_def]
  cases hl : σ.tdC.lookup n with
  | some v =>
    cases v with
    | mov w => simp [M.bind, M.pure, getM, hl]
    | tvv w => cases w <;> simp [M.bind, M.pure, getM, hl]
  | none =>
    cases hr : env.tmdbMovieDetails n with
    | error u =>
      simp [M.bind, M.pure, getM, hl, hr, logCall, modifyM, putTD,
        imdbCallCount_append_tmdb, Call.isImdb]
    | ok w =>
      cases w with
      | none =>
        simp [M.bind, M.pure, getM, hl, hr, logCall, modifyM, putTD,
          imdbCallCount_append_tmdb, Call.isImdb]
      | some d =>
        cases hi : env.tmdbMovieImages n <;>
          simp [M.bind, M.pure, getM, hl, hr, hi, logCall, modifyM, putTD,
            imdbCallCount_append_tmdb, Call.isImdb]

theorem movieTmdbFetch_no_imdb (env : Env) (n : Nat) (q e : Option String) (σ : St) :
    imdbCallCount (movieTmdbFetch env n q e σ).2.trace = imdbCallCount σ.trace := by
  unfold movieTmdbFetch
  simp only [bind_M_def, pure_M_def]
  rcases hd : tmdb_movie_details env n σ with ⟨ed, σ1⟩
  have h1 : imdbCallCount σ1.trace = imdbCallCount σ.trace := by
    have := tmdb_movie_details_no_imdb env n σ
    rw [hd] at this
    exact this
  cases ed with
  | error u => simp [M.bind, hd, h1]
  | ok v =>
    cases v with
    | m w => cases w <;> simp [M.bind, M.pure, hd, h1, throwM]
    | wtv t => simp [M.bind, M.pure, hd, h1, throwM]

theorem movieTmdbMode_no_imdb (env : Env) (title : String) (year : Option Nat)
    (q e : Option String) (tid : Option Nat) (σ : St) :
    imdbCallCount (movieTmdbMode env title year q e tid σ).2.trace
      = imdbCallCount σ.trace := by
  unfold movieTmdbMode
  by_cases hn : natT tid = true
  · simp only [hn, if_true]
    exact movieTmdbFetch_no_imdb env (tid.getD 0) q e σ
  · simp only [hn, if_false, Bool.false_eq_true, bind_M_def, pure_M_def]
    rcases hs : safe_tmdb_search env title "movie" year σ with ⟨es, σ1⟩
    have h1 : imdbCallCount σ1.trace = imdbCallCount σ.trace := by
      have := safe_tmdb_search_no_imdb env title "movie" year σ
      rw [hs] at this
      exact this
    cases es with
    | error u => simp [M.bind, hs, h1]
    | ok v =>
      cases v with
      | none => simp [M.bind, M.pure, hs, h1]
      | some res =>
        simp only [M.bind, hs]
        have := movieTmdbFetch_no_imdb env res.id q e σ1
        rcases hf : movieTmdbFetch env res.id q e σ1 with ⟨ef, σ2⟩
        rw [hf] at this
        simp [this, h1]

theorem fetch_movie_550 (env : Env) (σ : St) (title : String)
    (enc : Option String) (year : Option Nat) (q : Option String) :
    fetch_movie_metadata env title enc year q (some "550") σ =
      movieTmdbMode env title year q enc (some 550) σ := by
  have e1 : pyStrip "550" = "550" := by decide
  have e2 : startsWithTT "550" = false := by decide
  have e3 : isDigits "550" = true := by decide
  have e4 : pyInt "550" = 550 := by decide
  have e5 : ("550" : String).isEmpty = false := by decide
  unfold fetch_movie_metadata
  simp [e1, e2, e3, e4, e5, pyIdT, natT, M.bind, M.pure, detIsNone, detIsEmpty]

/-- C4 (amended): when the override-identifier setting is a URL from
which the resolver extracts the numeric string `"550"` (the bare string
extracts nothing), resolution classifies it as a TMDb id and uses
Provider B exclusively: no IMDb call is ever traced, whatever Provider A
cache entries exist in the starting state, and no exception escapes. -/
theorem override_url_tmdb_exclusive (env : Env) (σ : St) (filename : String)
    (channel msg_id : Nat) (parsed : Parsed) (u : String)
    (hu : env.useDefaultId = .ok u)
    (hx : extract_default_id u = some "550")
    (hp : env.ptnParse filename = .ok parsed)
    (hc : (match parsed.excess with | some x => hasCombined x | none => false) = false)
    (hm : multipart filename = false)
    (hs : parsed.season = none) (he : parsed.episode = none)
    (hq : strT parsed.resolution = true) (ht : strT parsed.title = true) :
    imdbCallCount (metadata env filename channel msg_id σ).2.trace
      = imdbCallCount σ.trace
    ∧ ∃ r, (metadata env filename channel msg_id σ).1 = Except.ok r := by
  have hdid : didOf env filename = some "550" := by
    unfold didOf
    rw [hu]
    simp [hx]
  have hroute : metadata env filename channel msg_id σ =
      tryM (fetch_movie_metadata env (parsed.title.getD "") (encOf env channel msg_id)
        parsed.year parsed.resolution (some "550")) (fun _ => M.pure none) σ := by
    unfold metadata
    rw [hp]
    simp [hc, hm, hs, he, hq, ht, seIsList, seT, hdid]
  have hfetch := fetch_movie_550 env σ (parsed.title.getD "")
    (encOf env channel msg_id) parsed.year parsed.resolution
  have hcount := movieTmdbMode_no_imdb env (parsed.title.getD "") parsed.year
    parsed.resolution (encOf env channel msg_id) (some 550) σ
  constructor
  · rw [hroute]
    rcases hmode : movieTmdbMode env (parsed.title.getD "") parsed.year
        parsed.resolution (encOf env channel msg_id) (some 550) σ with ⟨e, σ'⟩
    rw [hmode] at hcount
    have hXs : fetch_movie_metadata env (parsed.title.getD "")
        (encOf env channel msg_id) parsed.year parsed.resolution (some "550") σ
        = (e, σ') := by rw [hfetch, hmode]
    cases e with
    | error u' => rw [tryM_run_err _ hXs]; simpa using hcount
    | ok a => rw [tryM_run_ok _ hXs]; simpa using hcount
  · rw [hroute]
    exact tryM_total _ none σ

/-- Counterexample for C4: with the override-identifier setting equal to
the bare numeric string `"550"`, `extract_default_id` finds nothing, so an
IMDb title search runs: Provider A is searched, contradicting the claim
that Provider B is used exclusively. -/
theorem numeric_override_counterexample :
    E4bare.useDefaultId = .ok "550"
    ∧ imdbCallCount (metadata E4bare "Some.Movie.mkv" 0 0 emptySt).2.trace = 1
    ∧ (1 : Nat) ≠ 0 :=
  ⟨rfl, rfl, by decide⟩

/-- Witness for the amended C4 at a concrete input. -/
theorem override_url_tmdb_exclusive_witness :
    imdbCallCount (metadata EW4 "Some.Movie.mkv" 0 0 emptySt).2.trace
      = imdbCallCount emptySt.trace
    ∧ ∃ r, (metadata EW4 "Some.Movie.mkv" 0 0 emptySt).1 = Except.ok r :=
  override_url_tmdb_exclusive EW4 emptySt "Some.Movie.mkv" 0 0
    ⟨some "T", none, none, none, some "1080p", none⟩
    "https://www.themoviedb.org/movie/550-fight-club" rfl rfl rfl (by decide)
    (by decide) rfl rfl (by decide) (by decide)

/-- A second run of `fetch_tv_core` with a nonzero TMDb-classified
default id is answered entirely from the caches. -/
theorem core_warm_digits (env : Env) (title : String) (season episode : Nat)
    (enc : Option String) (year : Option Nat) (quality : Option String)
    (n : Nat) (hn : n ≠ 0) :
    fetch_tv_core env title season episode enc year quality .nilv (some n) true
      ((fetch_tv_core env title season episode enc year quality .nilv (some n) true
        emptySt).2)
    = ((fetch_tv_core env title season episode enc year quality .nilv (some n) true
        emptySt).1,
       (fetch_tv_core env title season episode enc year quality .nilv (some n) true
        emptySt).2) := by
  cases htd : env.tmdbTvDetails n with
  | error u =>
    simp [fetch_tv_core, tvTmdbMode, tvTmdbFetch, safe_imdb_search, safe_tmdb_search, tmdb_tv_details, tmdb_episode_details, M.bind, M.pure, tryM, getM, modifyM, throwM, logCall, putI, putE, putTS, putTD, liftE, pyIdT, natT, detIsNone, detIsEmpty, emptySt, List.lookup, String.isEmpty_iff, beq_sk_tk, beq_tk_sk, *]
  | ok dv =>
    cases dv with
    | none =>
      simp [fetch_tv_core, tvTmdbMode, tvTmdbFetch, safe_imdb_search, safe_tmdb_search, tmdb_tv_details, tmdb_episode_details, M.bind, M.pure, tryM, getM, modifyM, throwM, logCall, putI, putE, putTS, putTD, liftE, pyIdT, natT, detIsNone, detIsEmpty, emptySt, List.lookup, String.isEmpty_iff, beq_sk_tk, beq_tk_sk, *]
    | some dd2 =>
      cases hti : env.tmdbTvImages n with
      | error u =>
        simp [fetch_tv_core, tvTmdbMode, tvTmdbFetch, safe_imdb_search, safe_tmdb_search, tmdb_tv_details, tmdb_episode_details, M.bind, M.pure, tryM, getM, modifyM, throwM, logCall, putI, putE, putTS, putTD, liftE, pyIdT, natT, detIsNone, detIsEmpty, emptySt, List.lookup, String.isEmpty_iff, beq_sk_tk, beq_tk_sk, *]
      | ok im =>
        cases hte : env.tmdbEpisodeDetails n season episode with
        | error u =>
          simp [fetch_tv_core, tvTmdbMode, tvTmdbFetch, safe_imdb_search, safe_tmdb_search, tmdb_tv_details, tmdb_episode_details, M.bind, M.pure, tryM, getM, modifyM, throwM, logCall, putI, putE, putTS, putTD, liftE, pyIdT, natT, detIsNone, detIsEmpty, emptySt, List.lookup, String.isEmpty_iff, beq_sk_tk, beq_tk_sk, *]
        | ok ev =>
          simp [fetch_tv_core, tvTmdbMode, tvTmdbFetch, safe_imdb_search, safe_tmdb_search, tmdb_tv_details, tmdb_episode_details, M.bind, M.pure, tryM, getM, modifyM, throwM, logCall, putI, putE, putTS, putTD, liftE, pyIdT, natT, detIsNone, detIsEmpty, emptySt, List.lookup, String.isEmpty_iff, beq_sk_tk, beq_tk_sk, *]

/-- A second run of `fetch_tv_core` with a "tt"-classified default id,
from the state the first run (started on empty caches) left behind, is
answered entirely from the caches. -/
theorem core_warm_tt (env : Env)
    (hseas : ∀ i s e, ∃ v, env.getSeason i s e = Except.ok v)
    (hdet : ∀ i ty, ∃ v, env.getDetail i ty = Except.ok v)
    (title : String) (season episode : Nat)
    (enc : Option String) (year : Option Nat) (quality : Option String)
    (d : String) (hde : d.isEmpty = false) :
    fetch_tv_core env title season episode enc year quality (.str d) none false
      ((fetch_tv_core env title season episode enc year quality (.str d) none false
        emptySt).2)
    = ((fetch_tv_core env title season episode enc year quality (.str d) none false
        emptySt).1,
       (fetch_tv_core env title season episode enc year quality (.str d) none false
        emptySt).2) := by
  obtain ⟨v, hv⟩ := hdet d "tvSeries"
  obtain ⟨w, hw⟩ := hseas d season episode
  rcases v with _ | dd
  · cases hts : env.tmdbSearchTv title with
    | error u =>
      simp [fetch_tv_core, tvTmdbMode, tvTmdbFetch, safe_imdb_search, safe_tmdb_search, tmdb_tv_details, tmdb_episode_details, M.bind, M.pure, tryM, getM, modifyM, throwM, logCall, putI, putE, putTS, putTD, liftE, pyIdT, natT, detIsNone, detIsEmpty, emptySt, List.lookup, String.isEmpty_iff, beq_sk_tk, beq_tk_sk, *]
    | ok l =>
      cases l with
      | nil =>
        simp [fetch_tv_core, tvTmdbMode, tvTmdbFetch, safe_imdb_search, safe_tmdb_search, tmdb_tv_details, tmdb_episode_details, M.bind, M.pure, tryM, getM, modifyM, throwM, logCall, putI, putE, putTS, putTD, liftE, pyIdT, natT, detIsNone, detIsEmpty, emptySt, List.lookup, String.isEmpty_iff, beq_sk_tk, beq_tk_sk, *]
      | cons res rest =>
        cases htd : env.tmdbTvDetails res.id with
        | error u =>
          simp [fetch_tv_core, tvTmdbMode, tvTmdbFetch, safe_imdb_search, safe_tmdb_search, tmdb_tv_details, tmdb_episode_details, M.bind, M.pure, tryM, getM, modifyM, throwM, logCall, putI, putE, putTS, putTD, liftE, pyIdT, natT, detIsNone, detIsEmpty, emptySt, List.lookup, String.isEmpty_iff, beq_sk_tk, beq_tk_sk, *]
        | ok dv =>
          cases dv with
          | none =>
            simp [fetch_tv_core, tvTmdbMode, tvTmdbFetch, safe_imdb_search, safe_tmdb_search, tmdb_tv_details, tmdb_episode_details, M.bind, M.pure, tryM, getM, modifyM, throwM, logCall, putI, putE, putTS, putTD, liftE, pyIdT, natT, detIsNone, detIsEmpty, emptySt, List.lookup, String.isEmpty_iff, beq_sk_tk, beq_tk_sk, *]
          | some dd2 =>
            cases hti : env.tmdbTvImages res.id with
            | error u =>
              simp [fetch_tv_core, tvTmdbMode, tvTmdbFetch, safe_imdb_search, safe_tmdb_search, tmdb_tv_details, tmdb_episode_details, M.bind, M.pure, tryM, getM, modifyM, throwM, logCall, putI, putE, putTS, putTD, liftE, pyIdT, natT, detIsNone, detIsEmpty, emptySt, List.lookup, String.isEmpty_iff, beq_sk_tk, beq_tk_sk, *]
            | ok im =>
              cases hte : env.tmdbEpisodeDetails res.id season episode with
              | error u =>
                simp [fetch_tv_core, tvTmdbMode, tvTmdbFetch, safe_imdb_search, safe_tmdb_search, tmdb_tv_details, tmdb_episode_details, M.bind, M.pure, tryM, getM, modifyM, throwM, logCall, putI, putE, putTS, putTD, liftE, pyIdT, natT, detIsNone, detIsEmpty, emptySt, List.lookup, String.isEmpty_iff, beq_sk_tk, beq_tk_sk, *]
              | ok ev =>
                simp [fetch_tv_core, tvTmdbMode, tvTmdbFetch, safe_imdb_search, safe_tmdb_search, tmdb_tv_details, tmdb_episode_details, M.bind, M.pure, tryM, getM, modifyM, throwM, logCall, putI, putE, putTS, putTD, liftE, pyIdT, natT, detIsNone, detIsEmpty, emptySt, List.lookup, String.isEmpty_iff, beq_sk_tk, beq_tk_sk, *]
  · by_cases hdd : dd.isEmptyDict = true
    · cases hts : env.tmdbSearchTv title with
      | error u =>
        simp [fetch_tv_core, tvTmdbMode, tvTmdbFetch, safe_imdb_search, safe_tmdb_search, tmdb_tv_details, tmdb_episode_details, M.bind, M.pure, tryM, getM, modifyM, throwM, logCall, putI, putE, putTS, putTD, liftE, pyIdT, natT, detIsNone, detIsEmpty, emptySt, List.lookup, String.isEmpty_iff, beq_sk_tk, beq_tk_sk, *]
      | ok l =>
        cases l with
        | nil =>
          simp [fetch_tv_core, tvTmdbMode, tvTmdbFetch, safe_imdb_search, safe_tmdb_search, tmdb_tv_details, tmdb_episode_details, M.bind, M.pure, tryM, getM, modifyM, throwM, logCall, putI, putE, putTS, putTD, liftE, pyIdT, natT, detIsNone, detIsEmpty, emptySt, List.lookup, String.isEmpty_iff, beq_sk_tk, beq_tk_sk, *]
        | cons res rest =>
          cases htd : env.tmdbTvDetails res.id with
          | error u =>
            simp [fetch_tv_core, tvTmdbMode, tvTmdbFetch, safe_imdb_search, safe_tmdb_search, tmdb_tv_details, tmdb_episode_details, M.bind, M.pure, tryM, getM, modifyM, throwM, logCall, putI, putE, putTS, putTD, liftE, pyIdT, natT, detIsNone, detIsEmpty, emptySt, List.lookup, String.isEmpty_iff, beq_sk_tk, beq_tk_sk, *]
          | ok dv =>
            cases dv with
            | none =>
              simp [fetch_tv_core, tvTmdbMode, tvTmdbFetch, safe_imdb_search, safe_tmdb_search, tmdb_tv_details, tmdb_episode_details, M.bind, M.pure, tryM, getM, modifyM, throwM, logCall, putI, putE, putTS, putTD, liftE, pyIdT, natT, detIsNone, detIsEmpty, emptySt, List.lookup, String.isEmpty_iff, beq_sk_tk, beq_tk_sk, *]
            | some dd2 =>
              cases hti : env.tmdbTvImages res.id with
              | error u =>
                simp [fetch_tv_core, tvTmdbMode, tvTmdbFetch, safe_imdb_search, safe_tmdb_search, tmdb_tv_details, tmdb_episode_details, M.bind, M.pure, tryM, getM, modifyM, throwM, logCall, putI, putE, putTS, putTD, liftE, pyIdT, natT, detIsNone, detIsEmpty, emptySt, List.lookup, String.isEmpty_iff, beq_sk_tk, beq_tk_sk, *]
              | ok im =>
                cases hte : env.tmdbEpisodeDetails res.id season episode with
                | error u =>
                  simp [fetch_tv_core, tvTmdbMode, tvTmdbFetch, safe_imdb_search, safe_tmdb_search, tmdb_tv_details, tmdb_episode_details, M.bind, M.pure, tryM, getM, modifyM, throwM, logCall, putI, putE, putTS, putTD, liftE, pyIdT, natT, detIsNone, detIsEmpty, emptySt, List.lookup, String.isEmpty_iff, beq_sk_tk, beq_tk_sk, *]
                | ok ev =>
                  simp [fetch_tv_core, tvTmdbMode, tvTmdbFetch, safe_imdb_search, safe_tmdb_search, tmdb_tv_details, tmdb_episode_details, M.bind, M.pure, tryM, getM, modifyM, throwM, logCall, putI, putE, putTS, putTD, liftE, pyIdT, natT, detIsNone, detIsEmpty, emptySt, List.lookup, String.isEmpty_iff, beq_sk_tk, beq_tk_sk, *]
    · simp [fetch_tv_core, tvTmdbMode, tvTmdbFetch, safe_imdb_search, safe_tmdb_search, tmdb_tv_details, tmdb_episode_details, M.bind, M.pure, tryM, getM, modifyM, throwM, logCall, putI, putE, putTS, putTD, liftE, pyIdT, natT, detIsNone, detIsEmpty, emptySt, List.lookup, String.isEmpty_iff, beq_sk_tk, beq_tk_sk, *]

/-- A second run of `fetch_tv_core` that resolves through an IMDb title
search, from the state the first run (started on empty caches) left
behind, is answered entirely from the caches, provided the search and the
Provider A fetches did not fault (faults are not negatively cached). -/
theorem core_warm_search (env : Env)
    (hsearch : ∀ t ty, ∃ r, env.searchTitle t ty = Except.ok r ∧
        (match r with | some (.withId .absent) => False | _ => True))
    (hdet : ∀ i ty, ∃ v, env.getDetail i ty = Except.ok v)
    (hseas : ∀ i s e, ∃ v, env.getSeason i s e = Except.ok v)
    (title : String) (season episode : Nat)
    (enc : Option String) (year : Option Nat) (quality : Option String)
    (tid : Option Nat) (u : Bool) (hz : natT tid = false) :
    fetch_tv_core env title season episode enc year quality .nilv tid u
      ((fetch_tv_core env title season episode enc year quality .nilv tid u
        emptySt).2)
    = ((fetch_tv_core env title season episode enc year quality .nilv tid u
        emptySt).1,
       (fetch_tv_core env title season episode enc year quality .nilv tid u
        emptySt).2) := by
  obtain ⟨r, hra, hwf⟩ := hsearch title "tvSeries"
  rcases r with _ | sr
  · cases hts : env.tmdbSearchTv title with
    | error u =>
      simp [fetch_tv_core, tvTmdbMode, tvTmdbFetch, safe_imdb_search, safe_tmdb_search, tmdb_tv_details, tmdb_episode_details, M.bind, M.pure, tryM, getM, modifyM, throwM, logCall, putI, putE, putTS, putTD, liftE, pyIdT, detIsNone, detIsEmpty, emptySt, List.lookup, String.isEmpty_iff, beq_sk_tk, beq_tk_sk, *]
    | ok l =>
      cases l with
      | nil =>
        simp [fetch_tv_core, tvTmdbMode, tvTmdbFetch, safe_imdb_search, safe_tmdb_search, tmdb_tv_details, tmdb_episode_details, M.bind, M.pure, tryM, getM, modifyM, throwM, logCall, putI, putE, putTS, putTD, liftE, pyIdT, detIsNone, detIsEmpty, emptySt, List.lookup, String.isEmpty_iff, beq_sk_tk, beq_tk_sk, *]
      | cons res rest =>
        cases htd : env.tmdbTvDetails res.id with
        | error u =>
          simp [fetch_tv_core, tvTmdbMode, tvTmdbFetch, safe_imdb_search, safe_tmdb_search, tmdb_tv_details, tmdb_episode_details, M.bind, M.pure, tryM, getM, modifyM, throwM, logCall, putI, putE, putTS, putTD, liftE, pyIdT, detIsNone, detIsEmpty, emptySt, List.lookup, String.isEmpty_iff, beq_sk_tk, beq_tk_sk, *]
        | ok dv =>
          cases dv with
          | none =>
            simp [fetch_tv_core, tvTmdbMode, tvTmdbFetch, safe_imdb_search, safe_tmdb_search, tmdb_tv_details, tmdb_episode_details, M.bind, M.pure, tryM, getM, modifyM, throwM, logCall, putI, putE, putTS, putTD, liftE, pyIdT, detIsNone, detIsEmpty, emptySt, List.lookup, String.isEmpty_iff, beq_sk_tk, beq_tk_sk, *]
          | some dd2 =>
            cases hti : env.tmdbTvImages res.id with
            | error u =>
              simp [fetch_tv_core, tvTmdbMode, tvTmdbFetch, safe_imdb_search, safe_tmdb_search, tmdb_tv_details, tmdb_episode_details, M.bind, M.pure, tryM, getM, modifyM, throwM, logCall, putI, putE, putTS, putTD, liftE, pyIdT, detIsNone, detIsEmpty, emptySt, List.lookup, String.isEmpty_iff, beq_sk_tk, beq_tk_sk, *]
            | ok im =>
              cases hte : env.tmdbEpisodeDetails res.id season episode with
              | error u =>
                simp [fetch_tv_core, tvTmdbMode, tvTmdbFetch, safe_imdb_search, safe_tmdb_search, tmdb_tv_details, tmdb_episode_details, M.bind, M.pure, tryM, getM, modifyM, throwM, logCall, putI, putE, putTS, putTD, liftE, pyIdT, detIsNone, detIsEmpty, emptySt, List.lookup, String.isEmpty_iff, beq_sk_tk, beq_tk_sk, *]
              | ok ev =>
                simp [fetch_tv_core, tvTmdbMode, tvTmdbFetch, safe_imdb_search, safe_tmdb_search, tmdb_tv_details, tmdb_episode_details, M.bind, M.pure, tryM, getM, modifyM, throwM, logCall, putI, putE, putTS, putTD, liftE, pyIdT, detIsNone, detIsEmpty, emptySt, List.lookup, String.isEmpty_iff, beq_sk_tk, beq_tk_sk, *]
  · rcases sr with _ | f
    · cases hts : env.tmdbSearchTv title with
      | error u =>
        simp [fetch_tv_core, tvTmdbMode, tvTmdbFetch, safe_imdb_search, safe_tmdb_search, tmdb_tv_details, tmdb_episode_details, M.bind, M.pure, tryM, getM, modifyM, throwM, logCall, putI, putE, putTS, putTD, liftE, pyIdT, detIsNone, detIsEmpty, emptySt, List.lookup, String.isEmpty_iff, beq_sk_tk, beq_tk_sk, *]
      | ok l =>
        cases l with
        | nil =>
          simp [fetch_tv_core, tvTmdbMode, tvTmdbFetch, safe_imdb_search, safe_tmdb_search, tmdb_tv_details, tmdb_episode_details, M.bind, M.pure, tryM, getM, modifyM, throwM, logCall, putI, putE, putTS, putTD, liftE, pyIdT, detIsNone, detIsEmpty, emptySt, List.lookup, String.isEmpty_iff, beq_sk_tk, beq_tk_sk, *]
        | cons res rest =>
          cases htd : env.tmdbTvDetails res.id with
          | error u =>
            simp [fetch_tv_core, tvTmdbMode, tvTmdbFetch, safe_imdb_search, safe_tmdb_search, tmdb_tv_details, tmdb_episode_details, M.bind, M.pure, tryM, getM, modifyM, throwM, logCall, putI, putE, putTS, putTD, liftE, pyIdT, detIsNone, detIsEmpty, emptySt, List.lookup, String.isEmpty_iff, beq_sk_tk, beq_tk_sk, *]
          | ok dv =>
            cases dv with
            | none =>
              simp [fetch_tv_core, tvTmdbMode, tvTmdbFetch, safe_imdb_search, safe_tmdb_search, tmdb_tv_details, tmdb_episode_details, M.bind, M.pure, tryM, getM, modifyM, throwM, logCall, putI, putE, putTS, putTD, liftE, pyIdT, detIsNone, detIsEmpty, emptySt, List.lookup, String.isEmpty_iff, beq_sk_tk, beq_tk_sk, *]
            | some dd2 =>
              cases hti : env.tmdbTvImages res.id with
              | error u =>
                simp [fetch_tv_core, tvTmdbMode, tvTmdbFetch, safe_imdb_search, safe_tmdb_search, tmdb_tv_details, tmdb_episode_details, M.bind, M.pure, tryM, getM, modifyM, throwM, logCall, putI, putE, putTS, putTD, liftE, pyIdT, detIsNone, detIsEmpty, emptySt, List.lookup, String.isEmpty_iff, beq_sk_tk, beq_tk_sk, *]
              | ok im =>
                cases hte : env.tmdbEpisodeDetails res.id season episode with
                | error u =>
                  simp [fetch_tv_core, tvTmdbMode, tvTmdbFetch, safe_imdb_search, safe_tmdb_search, tmdb_tv_details, tmdb_episode_details, M.bind, M.pure, tryM, getM, modifyM, throwM, logCall, putI, putE, putTS, putTD, liftE, pyIdT, detIsNone, detIsEmpty, emptySt, List.lookup, String.isEmpty_iff, beq_sk_tk, beq_tk_sk, *]
                | ok ev =>
                  simp [fetch_tv_core, tvTmdbMode, tvTmdbFetch, safe_imdb_search, safe_tmdb_search, tmdb_tv_details, tmdb_episode_details, M.bind, M.pure, tryM, getM, modifyM, throwM, logCall, putI, putE, putTS, putTD, liftE, pyIdT, detIsNone, detIsEmpty, emptySt, List.lookup, String.isEmpty_iff, beq_sk_tk, beq_tk_sk, *]
    · rcases f with _ | _ | s
      · exact hwf.elim
      · cases hts : env.tmdbSearchTv title with
        | error u =>
          simp [fetch_tv_core, tvTmdbMode, tvTmdbFetch, safe_imdb_search, safe_tmdb_search, tmdb_tv_details, tmdb_episode_details, M.bind, M.pure, tryM, getM, modifyM, throwM, logCall, putI, putE, putTS, putTD, liftE, pyIdT, detIsNone, detIsEmpty, emptySt, List.lookup, String.isEmpty_iff, beq_sk_tk, beq_tk_sk, *]
        | ok l =>
          cases l with
          | nil =>
            simp [fetch_tv_core, tvTmdbMode, tvTmdbFetch, safe_imdb_search, safe_tmdb_search, tmdb_tv_details, tmdb_episode_details, M.bind, M.pure, tryM, getM, modifyM, throwM, logCall, putI, putE, putTS, putTD, liftE, pyIdT, detIsNone, detIsEmpty, emptySt, List.lookup, String.isEmpty_iff, beq_sk_tk, beq_tk_sk, *]
          | cons res rest =>
            cases htd : env.tmdbTvDetails res.id with
            | error u =>
              simp [fetch_tv_core, tvTmdbMode, tvTmdbFetch, safe_imdb_search, safe_tmdb_search, tmdb_tv_details, tmdb_episode_details, M.bind, M.pure, tryM, getM, modifyM, throwM, logCall, putI, putE, putTS, putTD, liftE, pyIdT, detIsNone, detIsEmpty, emptySt, List.lookup, String.isEmpty_iff, beq_sk_tk, beq_tk_sk, *]
            | ok dv =>
              cases dv with
              | none =>
                simp [fetch_tv_core, tvTmdbMode, tvTmdbFetch, safe_imdb_search, safe_tmdb_search, tmdb_tv_details, tmdb_episode_details, M.bind, M.pure, tryM, getM, modifyM, throwM, logCall, putI, putE, putTS, putTD, liftE, pyIdT, detIsNone, detIsEmpty, emptySt, List.lookup, String.isEmpty_iff, beq_sk_tk, beq_tk_sk, *]
              | some dd2 =>
                cases hti : env.tmdbTvImages res.id with
                | error u =>
                  simp [fetch_tv_core, tvTmdbMode, tvTmdbFetch, safe_imdb_search, safe_tmdb_search, tmdb_tv_details, tmdb_episode_details, M.bind, M.pure, tryM, getM, modifyM, throwM, logCall, putI, putE, putTS, putTD, liftE, pyIdT, detIsNone, detIsEmpty, emptySt, List.lookup, String.isEmpty_iff, beq_sk_tk, beq_tk_sk, *]
                | ok im =>
                  cases hte : env.tmdbEpisodeDetails res.id season episode with
                  | error u =>
                    simp [fetch_tv_core, tvTmdbMode, tvTmdbFetch, safe_imdb_search, safe_tmdb_search, tmdb_tv_details, tmdb_episode_details, M.bind, M.pure, tryM, getM, modifyM, throwM, logCall, putI, putE, putTS, putTD, liftE, pyIdT, detIsNone, detIsEmpty, emptySt, List.lookup, String.isEmpty_iff, beq_sk_tk, beq_tk_sk, *]
                  | ok ev =>
                    simp [fetch_tv_core, tvTmdbMode, tvTmdbFetch, safe_imdb_search, safe_tmdb_search, tmdb_tv_details, tmdb_episode_details, M.bind, M.pure, tryM, getM, modifyM, throwM, logCall, putI, putE, putTS, putTD, liftE, pyIdT, detIsNone, detIsEmpty, emptySt, List.lookup, String.isEmpty_iff, beq_sk_tk, beq_tk_sk, *]
      · by_cases hse : s.isEmpty = true
        · cases hts : env.tmdbSearchTv title with
          | error u =>
            simp [fetch_tv_core, tvTmdbMode, tvTmdbFetch, safe_imdb_search, safe_tmdb_search, tmdb_tv_details, tmdb_episode_details, M.bind, M.pure, tryM, getM, modifyM, throwM, logCall, putI, putE, putTS, putTD, liftE, pyIdT, detIsNone, detIsEmpty, emptySt, List.lookup, String.isEmpty_iff, beq_sk_tk, beq_tk_sk, *]
          | ok l =>
            cases l with
            | nil =>
              simp [fetch_tv_core, tvTmdbMode, tvTmdbFetch, safe_imdb_search, safe_tmdb_search, tmdb_tv_details, tmdb_episode_details, M.bind, M.pure, tryM, getM, modifyM, throwM, logCall, putI, putE, putTS, putTD, liftE, pyIdT, detIsNone, detIsEmpty, emptySt, List.lookup, String.isEmpty_iff, beq_sk_tk, beq_tk_sk, *]
            | cons res rest =>
              cases htd : env.tmdbTvDetails res.id with
              | error u =>
                simp [fetch_tv_core, tvTmdbMode, tvTmdbFetch, safe_imdb_search, safe_tmdb_search, tmdb_tv_details, tmdb_episode_details, M.bind, M.pure, tryM, getM, modifyM, throwM, logCall, putI, putE, putTS, putTD, liftE, pyIdT, detIsNone, detIsEmpty, emptySt, List.lookup, String.isEmpty_iff, beq_sk_tk, beq_tk_sk, *]
              | ok dv =>
                cases dv with
                | none =>
                  simp [fetch_tv_core, tvTmdbMode, tvTmdbFetch, safe_imdb_search, safe_tmdb_search, tmdb_tv_details, tmdb_episode_details, M.bind, M.pure, tryM, getM, modifyM, throwM, logCall, putI, putE, putTS, putTD, liftE, pyIdT, detIsNone, detIsEmpty, emptySt, List.lookup, String.isEmpty_iff, beq_sk_tk, beq_tk_sk, *]
                | some dd2 =>
                  cases hti : env.tmdbTvImages res.id with
                  | error u =>
                    simp [fetch_tv_core, tvTmdbMode, tvTmdbFetch, safe_imdb_search, safe_tmdb_search, tmdb_tv_details, tmdb_episode_details, M.bind, M.pure, tryM, getM, modifyM, throwM, logCall, putI, putE, putTS, putTD, liftE, pyIdT, detIsNone, detIsEmpty, emptySt, List.lookup, String.isEmpty_iff, beq_sk_tk, beq_tk_sk, *]
                  | ok im =>
                    cases hte : env.tmdbEpisodeDetails res.id season episode with
                    | error u =>
                      simp [fetch_tv_core, tvTmdbMode, tvTmdbFetch, safe_imdb_search, safe_tmdb_search, tmdb_tv_details, tmdb_episode_details, M.bind, M.pure, tryM, getM, modifyM, throwM, logCall, putI, putE, putTS, putTD, liftE, pyIdT, detIsNone, detIsEmpty, emptySt, List.lookup, String.isEmpty_iff, beq_sk_tk, beq_tk_sk, *]
                    | ok ev =>
                      simp [fetch_tv_core, tvTmdbMode, tvTmdbFetch, safe_imdb_search, safe_tmdb_search, tmdb_tv_details, tmdb_episode_details, M.bind, M.pure, tryM, getM, modifyM, throwM, logCall, putI, putE, putTS, putTD, liftE, pyIdT, detIsNone, detIsEmpty, emptySt, List.lookup, String.isEmpty_iff, beq_sk_tk, beq_tk_sk, *]
        · have hseb : s.isEmpty = false := by simpa using hse
          by_cases hcol : s = "imdb::tvSeries::" ++ title
          · subst hcol
            obtain ⟨w, hw⟩ := hseas ("imdb::tvSeries::" ++ title) season episode
            simp [fetch_tv_core, tvTmdbMode, tvTmdbFetch, safe_imdb_search, safe_tmdb_search, tmdb_tv_details, tmdb_episode_details, M.bind, M.pure, tryM, getM, modifyM, throwM, logCall, putI, putE, putTS, putTD, liftE, pyIdT, detIsNone, detIsEmpty, emptySt, List.lookup, String.isEmpty_iff, beq_sk_tk, beq_tk_sk, *]
          · have h1 : (s == ("imdb::tvSeries::" ++ title)) = false := by
              simp [beq_eq_false_iff_ne]
              exact hcol
            have h2 : (("imdb::tvSeries::" ++ title) == s) = false := by
              simp [beq_eq_false_iff_ne]
              exact fun h => hcol h.symm
            obtain ⟨v, hv⟩ := hdet s "tvSeries"
            obtain ⟨w, hw⟩ := hseas s season episode
            rcases v with _ | dd
            · cases hts : env.tmdbSearchTv title with
              | error u =>
                simp [fetch_tv_core, tvTmdbMode, tvTmdbFetch, safe_imdb_search, safe_tmdb_search, tmdb_tv_details, tmdb_episode_details, M.bind, M.pure, tryM, getM, modifyM, throwM, logCall, putI, putE, putTS, putTD, liftE, pyIdT, detIsNone, detIsEmpty, emptySt, List.lookup, String.isEmpty_iff, beq_sk_tk, beq_tk_sk, *]
              | ok l =>
                cases l with
                | nil =>
                  simp [fetch_tv_core, tvTmdbMode, tvTmdbFetch, safe_imdb_search, safe_tmdb_search, tmdb_tv_details, tmdb_episode_details, M.bind, M.pure, tryM, getM, modifyM, throwM, logCall, putI, putE, putTS, putTD, liftE, pyIdT, detIsNone, detIsEmpty, emptySt, List.lookup, String.isEmpty_iff, beq_sk_tk, beq_tk_sk, *]
                | cons res rest =>
                  cases htd : env.tmdbTvDetails res.id with
                  | error u =>
                    simp [fetch_tv_core, tvTmdbMode, tvTmdbFetch, safe_imdb_search, safe_tmdb_search, tmdb_tv_details, tmdb_episode_details, M.bind, M.pure, tryM, getM, modifyM, throwM, logCall, putI, putE, putTS, putTD, liftE, pyIdT, detIsNone, detIsEmpty, emptySt, List.lookup, String.isEmpty_iff, beq_sk_tk, beq_tk_sk, *]
                  | ok dv =>
                    cases dv with
                    | none =>
                      simp [fetch_tv_core, tvTmdbMode, tvTmdbFetch, safe_imdb_search, safe_tmdb_search, tmdb_tv_details, tmdb_episode_details, M.bind, M.pure, tryM, getM, modifyM, throwM, logCall, putI, putE, putTS, putTD, liftE, pyIdT, detIsNone, detIsEmpty, emptySt, List.lookup, String.isEmpty_iff, beq_sk_tk, beq_tk_sk, *]
                    | some dd2 =>
                      cases hti : env.tmdbTvImages res.id with
                      | error u =>
                        simp [fetch_tv_core, tvTmdbMode, tvTmdbFetch, safe_imdb_search, safe_tmdb_search, tmdb_tv_details, tmdb_episode_details, M.bind, M.pure, tryM, getM, modifyM, throwM, logCall, putI, putE, putTS, putTD, liftE, pyIdT, detIsNone, detIsEmpty, emptySt, List.lookup, String.isEmpty_iff, beq_sk_tk, beq_tk_sk, *]
                      | ok im =>
                        cases hte : env.tmdbEpisodeDetails res.id season episode with
                        | error u =>
                          simp [fetch_tv_core, tvTmdbMode, tvTmdbFetch, safe_imdb_search, safe_tmdb_search, tmdb_tv_details, tmdb_episode_details, M.bind, M.pure, tryM, getM, modifyM, throwM, logCall, putI, putE, putTS, putTD, liftE, pyIdT, detIsNone, detIsEmpty, emptySt, List.lookup, String.isEmpty_iff, beq_sk_tk, beq_tk_sk, *]
                        | ok ev =>
                          simp [fetch_tv_core, tvTmdbMode, tvTmdbFetch, safe_imdb_search, safe_tmdb_search, tmdb_tv_details, tmdb_episode_details, M.bind, M.pure, tryM, getM, modifyM, throwM, logCall, putI, putE, putTS, putTD, liftE, pyIdT, detIsNone, detIsEmpty, emptySt, List.lookup, String.isEmpty_iff, beq_sk_tk, beq_tk_sk, *]
            · by_cases hdd : dd.isEmptyDict = true
              · cases hts : env.tmdbSearchTv title with
                | error u =>
                  simp [fetch_tv_core, tvTmdbMode, tvTmdbFetch, safe_imdb_search, safe_tmdb_search, tmdb_tv_details, tmdb_episode_details, M.bind, M.pure, tryM, getM, modifyM, throwM, logCall, putI, putE, putTS, putTD, liftE, pyIdT, detIsNone, detIsEmpty, emptySt, List.lookup, String.isEmpty_iff, beq_sk_tk, beq_tk_sk, *]
                | ok l =>
                  cases l with
                  | nil =>
                    simp [fetch_tv_core, tvTmdbMode, tvTmdbFetch, safe_imdb_search, safe_tmdb_search, tmdb_tv_details, tmdb_episode_details, M.bind, M.pure, tryM, getM, modifyM, throwM, logCall, putI, putE, putTS, putTD, liftE, pyIdT, detIsNone, detIsEmpty, emptySt, List.lookup, String.isEmpty_iff, beq_sk_tk, beq_tk_sk, *]
                  | cons res rest =>
                    cases htd : env.tmdbTvDetails res.id with
                    | error u =>
                      simp [fetch_tv_core, tvTmdbMode, tvTmdbFetch, safe_imdb_search, safe_tmdb_search, tmdb_tv_details, tmdb_episode_details, M.bind, M.pure, tryM, getM, modifyM, throwM, logCall, putI, putE, putTS, putTD, liftE, pyIdT, detIsNone, detIsEmpty, emptySt, List.lookup, String.isEmpty_iff, beq_sk_tk, beq_tk_sk, *]
                    | ok dv =>
                      cases dv with
                      | none =>
                        simp [fetch_tv_core, tvTmdbMode, tvTmdbFetch, safe_imdb_search, safe_tmdb_search, tmdb_tv_details, tmdb_episode_details, M.bind, M.pure, tryM, getM, modifyM, throwM, logCall, putI, putE, putTS, putTD, liftE, pyIdT, detIsNone, detIsEmpty, emptySt, List.lookup, String.isEmpty_iff, beq_sk_tk, beq_tk_sk, *]
                      | some dd2 =>
                        cases hti : env.tmdbTvImages res.id with
                        | error u =>
                          simp [fetch_tv_core, tvTmdbMode, tvTmdbFetch, safe_imdb_search, safe_tmdb_search, tmdb_tv_details, tmdb_episode_details, M.bind, M.pure, tryM, getM, modifyM, throwM, logCall, putI, putE, putTS, putTD, liftE, pyIdT, detIsNone, detIsEmpty, emptySt, List.lookup, String.isEmpty_iff, beq_sk_tk, beq_tk_sk, *]
                        | ok im =>
                          cases hte : env.tmdbEpisodeDetails res.id season episode with
                          | error u =>
                            simp [fetch_tv_core, tvTmdbMode, tvTmdbFetch, safe_imdb_search, safe_tmdb_search, tmdb_tv_details, tmdb_episode_details, M.bind, M.pure, tryM, getM, modifyM, throwM, logCall, putI, putE, putTS, putTD, liftE, pyIdT, detIsNone, detIsEmpty, emptySt, List.lookup, String.isEmpty_iff, beq_sk_tk, beq_tk_sk, *]
                          | ok ev =>
                            simp [fetch_tv_core, tvTmdbMode, tvTmdbFetch, safe_imdb_search, safe_tmdb_search, tmdb_tv_details, tmdb_episode_details, M.bind, M.pure, tryM, getM, modifyM, throwM, logCall, putI, putE, putTS, putTD, liftE, pyIdT, detIsNone, detIsEmpty, emptySt, List.lookup, String.isEmpty_iff, beq_sk_tk, beq_tk_sk, *]
              · simp [fetch_tv_core, tvTmdbMode, tvTmdbFetch, safe_imdb_search, safe_tmdb_search, tmdb_tv_details, tmdb_episode_details, M.bind, M.pure, tryM, getM, modifyM, throwM, logCall, putI, putE, putTS, putTD, liftE, pyIdT, detIsNone, detIsEmpty, emptySt, List.lookup, String.isEmpty_iff, beq_sk_tk, beq_tk_sk, *]

/-- C5 (amended): resolving an identical (title, season, episode) a second
time after a first complete resolution from empty caches produces an
identical outcome and leaves the state — in particular the outbound-call
trace — unchanged: every lookup is answered from the per-process caches,
provided the first run's IMDb search and IMDb detail/episode fetches did
not raise (a raised IMDb lookup is not negatively cached and is retried,
unlike the TMDb wrappers, which negatively cache faults). -/
theorem warm_cache_idempotent (env : Env)
    (hsearch : ∀ t ty, ∃ r, env.searchTitle t ty = Except.ok r ∧
        (match r with | some (.withId .absent) => False | _ => True))
    (hdet : ∀ i ty, ∃ v, env.getDetail i ty = Except.ok v)
    (hseas : ∀ i s e, ∃ v, env.getSeason i s e = Except.ok v)
    (title : String) (season episode : Nat) (enc : Option String)
    (year : Option Nat) (quality : Option String) (default_id : Option String) :
    fetch_tv_metadata env title season episode enc year quality default_id
      ((fetch_tv_metadata env title season episode enc year quality default_id
        emptySt).2)
    = ((fetch_tv_metadata env title season episode enc year quality default_id
        emptySt).1,
       (fetch_tv_metadata env title season episode enc year quality default_id
        emptySt).2)
    ∧ (fetch_tv_metadata env title season episode enc year quality default_id
        ((fetch_tv_metadata env title season episode enc year quality default_id
          emptySt).2)).2.trace
      = (fetch_tv_metadata env title season episode enc year quality default_id
          emptySt).2.trace := by
  have main : fetch_tv_metadata env title season episode enc year quality default_id
      ((fetch_tv_metadata env title season episode enc year quality default_id
        emptySt).2)
      = ((fetch_tv_metadata env title season episode enc year quality default_id
          emptySt).1,
         (fetch_tv_metadata env title season episode enc year quality default_id
          emptySt).2) := by
    cases default_id with
    | none =>
      simp only [fetch_tv_metadata]
      exact core_warm_search env hsearch hdet hseas title season episode enc year
        quality none false rfl
    | some d =>
      by_cases hde : d.isEmpty = true
      · simp only [fetch_tv_metadata, hde, Bool.not_true, Bool.false_eq_true, if_false]
        exact core_warm_search env hsearch hdet hseas title season episode enc year
          quality none false rfl
      · have hde' : d.isEmpty = false := by simpa using hde
        by_cases htt : startsWithTT d = true
        · simp only [fetch_tv_metadata, hde', htt, Bool.not_false, if_true]
          exact core_warm_tt env hseas hdet title season episode enc year quality d hde'
        · have htt' : startsWithTT d = false := by simpa using htt
          by_cases hdig : isDigits d = true
          · by_cases hz : pyInt d = 0
            · simp only [fetch_tv_metadata, hde', htt', hdig, Bool.not_false, if_true,
                Bool.false_eq_true, if_false]
              exact core_warm_search env hsearch hdet hseas title season episode enc
                year quality (some (pyInt d)) true (by simp [natT, hz])
            · simp only [fetch_tv_metadata, hde', htt', hdig, Bool.not_false, if_true,
                Bool.false_eq_true, if_false]
              exact core_warm_digits env title season episode enc year quality
                (pyInt d) hz
          · have hdig' : isDigits d = false := by simpa using hdig
            simp only [fetch_tv_metadata, hde', htt', hdig', Bool.not_false, if_true,
              Bool.false_eq_true, if_false]
            exact core_warm_search env hsearch hdet hseas title season episode enc
              year quality none false rfl
  exact ⟨main, by rw [main]⟩

/-- Counterexample for C5: after a first complete resolution (which
returns null), resolving the identical (title, season, episode) again
issues another outbound IMDb search call — the faulted search was not
negatively cached — so the second resolution does not make zero outbound
calls. -/
theorem warm_cache_counterexample :
    (fetch_tv_metadata EsearchRaise "T" 1 2 none none (some "1080p") none
      emptySt).1 = Except.ok none
    ∧ (fetch_tv_metadata EsearchRaise "T" 1 2 none none (some "1080p") none
        emptySt).2.trace = [.cImdbSearch, .cTmdbSearch]
    ∧ (fetch_tv_metadata EsearchRaise "T" 1 2 none none (some "1080p") none
        (fetch_tv_metadata EsearchRaise "T" 1 2 none none (some "1080p") none
          emptySt).2).2.trace
      = [.cImdbSearch, .cTmdbSearch, .cImdbSearch] :=
  ⟨rfl, rfl, rfl⟩

/-- Witness for the amended C5 at a concrete input. -/
theorem warm_cache_idempotent_witness :
    fetch_tv_metadata E5W "T" 1 2 none none (some "1080p") none
      ((fetch_tv_metadata E5W "T" 1 2 none none (some "1080p") none emptySt).2)
    = ((fetch_tv_metadata E5W "T" 1 2 none none (some "1080p") none emptySt).1,
       (fetch_tv_metadata E5W "T" 1 2 none none (some "1080p") none emptySt).2) :=
  (warm_cache_idempotent E5W
    (fun _ _ => ⟨some (.withId (.val "tt0903747")), rfl, trivial⟩)
    (fun _ _ => ⟨some usableDict, rfl⟩)
    (fun _ _ _ => ⟨some ⟨.val "Pilot", .absent, .absent, .absent, false⟩, rfl⟩)
    "T" 1 2 none none (some "1080p") none).1

end TgStremio
